import Mathlib

/-!
Shallow embedding of the simulation core of the `space-invaders` repository
(`src/model.c`, `src/model.h`, `include/common.h`, `include/controller.h`).

Conventions used throughout:
* C `float`/`double` values are modelled as `ℚ` (all operations performed on
  them are `+ - *`, comparisons, and constants);
* C `int` values are modelled as `ℤ` (no overflow occurs in the ranges the
  program uses them);
* the fixed-size C arrays (`enemies[MAX_ENEMIES]`, `bullets[MAX_BULLETS]`,
  `shields[MAX_SHIELDS]`, `save_files[MAX_SAVE_FILES]`) are modelled as lists,
  iterated in index order exactly as the C loops do;
* `rand()` is modelled by an explicit stream of draws (`List ℕ`), consumed in
  the order the C code calls `rand()`;
* the save directory is modelled as an association list from file name to
  file content (`SaveFile`), where `SaveFile.corrupt` stands for a file whose
  read yields fewer than one full `GameModel` record;
* `exit(0)` is modelled by an explicit `exited` flag in the result.
-/

namespace SpaceInv

-- ===== constants from common.h / model.h =====

def GAME_WIDTH : ℚ := 100
def GAME_HEIGHT : ℚ := 50
def MAX_ENEMIES : ℕ := 60
def MAX_BULLETS : ℕ := 100
def PLAYER_SPEED : ℚ := 40
def BULLET_SPEED : ℚ := 60
def ENEMY_SPEED_BASE : ℚ := 10
def ENEMY_DROP_HEIGHT : ℚ := 2
def PLAYER_WIDTH : ℚ := 5
def PLAYER_HEIGHT : ℚ := 3
def ENEMY_WIDTH : ℚ := 4
def ENEMY_HEIGHT : ℚ := 3
def BULLET_WIDTH : ℚ := 1
def BULLET_HEIGHT : ℚ := 1
def MAX_SAVE_FILES : ℕ := 10
def MAX_SHIELDS : ℕ := 4
def SHIELD_MAX_HEALTH : ℤ := 10
def UFO_SPEED : ℚ := 10
def UFO_WIDTH : ℚ := 4
def UFO_HEIGHT : ℚ := 2

-- ===== enumerations =====

inductive EntityType where
  | ENTITY_PLAYER
  | ENTITY_BULLET_PLAYER
  | ENTITY_BULLET_ENEMY
  | ENTITY_ENEMY_TYPE_1
  | ENTITY_ENEMY_TYPE_2
  | ENTITY_ENEMY_TYPE_3
  | ENTITY_UFO
deriving DecidableEq

export EntityType (ENTITY_PLAYER ENTITY_BULLET_PLAYER ENTITY_BULLET_ENEMY
  ENTITY_ENEMY_TYPE_1 ENTITY_ENEMY_TYPE_2 ENTITY_ENEMY_TYPE_3 ENTITY_UFO)

inductive GameStateEnum where
  | STATE_MENU
  | STATE_PLAYING
  | STATE_PAUSED
  | STATE_TUTORIAL
  | STATE_GAME_OVER
  | STATE_VICTORY
  | STATE_CONFIRM_QUIT
  | STATE_SAVE_INPUT
  | STATE_LOAD_MENU
  | STATE_OVERWRITE_CONFIRM
  | STATE_SAVE_SELECT
  | STATE_SAVE_SUCCESS
deriving DecidableEq

export GameStateEnum (STATE_MENU STATE_PLAYING STATE_PAUSED STATE_TUTORIAL
  STATE_GAME_OVER STATE_VICTORY STATE_CONFIRM_QUIT STATE_SAVE_INPUT
  STATE_LOAD_MENU STATE_OVERWRITE_CONFIRM STATE_SAVE_SELECT STATE_SAVE_SUCCESS)

inductive GameCommand where
  | CMD_NONE
  | CMD_PAUSE
  | CMD_EXIT
  | CMD_MOVE_LEFT
  | CMD_MOVE_RIGHT
  | CMD_SHOOT
  | CMD_UP
  | CMD_DOWN
  | CMD_LEFT
  | CMD_RIGHT
  | CMD_RETURN
  | CMD_BACKSPACE
deriving DecidableEq

export GameCommand (CMD_NONE CMD_PAUSE CMD_EXIT CMD_MOVE_LEFT CMD_MOVE_RIGHT
  CMD_SHOOT CMD_UP CMD_DOWN CMD_LEFT CMD_RIGHT CMD_RETURN CMD_BACKSPACE)

-- ===== data structures (model.h) =====

structure Entity where
  x : ℚ
  y : ℚ
  width : ℚ   -- `int` in the source; only ever used in float arithmetic
  height : ℚ  -- `int` in the source; only ever used in float arithmetic
  dx : ℚ
  dy : ℚ
  active : Bool
  type : EntityType
  shoot_timer : ℚ
  anim_timer : ℚ
  anim_frame : ℤ
  exploding : Bool
  explode_timer : ℚ
deriving DecidableEq

structure Ufo where
  x : ℚ
  y : ℚ
  width : ℚ
  height : ℚ
  dx : ℚ
  active : Bool
  hasSpawnedThisLevel : Bool
  exploding : Bool
  explode_timer : ℚ
  type : EntityType
deriving DecidableEq

structure Shield where
  x : ℚ
  y : ℚ
  width : ℚ
  height : ℚ
  health : ℤ
  active : Bool
deriving DecidableEq

structure SoundState where
  play_shoot : Bool
  play_invader_killed : Bool
  play_player_explosion : Bool
  play_select_sound : Bool
  play_game_over : Bool
  play_level_up : Bool
  play_beat : Bool
  beat_index : ℤ
  ufo_loopING : Bool
deriving DecidableEq

structure GameModel where
  state : GameStateEnum
  previous_state : GameStateEnum
  player : Entity
  enemies : List Entity
  bullets : List Entity
  ufo : Ufo
  shields : List Shield
  score : ℤ
  lives : ℤ
  level : ℤ
  normal_max_lives : ℤ
  enemy_speed_mult : ℚ
  direction_enemies : ℤ
  drop_direction : ℤ
  drop_step_count : ℤ
  animation_frame : ℤ
  animation_timer : ℚ
  game_over_timer : ℚ
  hit_timer : ℚ
  save_success_timer : ℚ
  menu_selection : ℤ
  input_buffer : String
  save_files : List String  -- the recorded prefix of the `save_files` array
  save_file_count : ℤ
  current_filename : String
  pending_quit : Bool
  sounds : SoundState
  volume : ℤ
  is_muted : Bool
deriving DecidableEq

-- ===== zero values (calloc) =====

def zeroEntity : Entity :=
  { x := 0, y := 0, width := 0, height := 0, dx := 0, dy := 0, active := false,
    type := ENTITY_PLAYER, shoot_timer := 0, anim_timer := 0, anim_frame := 0,
    exploding := false, explode_timer := 0 }

def zeroUfo : Ufo :=
  { x := 0, y := 0, width := 0, height := 0, dx := 0, active := false,
    hasSpawnedThisLevel := false, exploding := false, explode_timer := 0,
    type := ENTITY_PLAYER }

def zeroShield : Shield :=
  { x := 0, y := 0, width := 0, height := 0, health := 0, active := false }

def soundsCleared : SoundState :=
  { play_shoot := false, play_invader_killed := false,
    play_player_explosion := false, play_select_sound := false,
    play_game_over := false, play_level_up := false, play_beat := false,
    beat_index := 0, ufo_loopING := false }

def zeroModel : GameModel :=
  { state := STATE_MENU, previous_state := STATE_MENU, player := zeroEntity,
    enemies := List.replicate MAX_ENEMIES zeroEntity,
    bullets := List.replicate MAX_BULLETS zeroEntity,
    ufo := zeroUfo, shields := List.replicate MAX_SHIELDS zeroShield,
    score := 0, lives := 0, level := 0, normal_max_lives := 0,
    enemy_speed_mult := 0, direction_enemies := 0, drop_direction := 0,
    drop_step_count := 0, animation_frame := 0, animation_timer := 0,
    game_over_timer := 0, hit_timer := 0, save_success_timer := 0,
    menu_selection := 0, input_buffer := "", save_files := [],
    save_file_count := 0, current_filename := "", pending_quit := false,
    sounds := soundsCleared, volume := 0, is_muted := false }

-- ===== file-system model =====

/-- Content of a file in the `sauvegardes/` directory: either one full
`GameModel` record, or a file whose read yields fewer bytes than one record. -/
inductive SaveFile where
  | full (m : GameModel) : SaveFile
  | corrupt : SaveFile
deriving DecidableEq

/-- The `sauvegardes/` directory, as an association list (newest entry first;
`List.lookup` finds the most recent write, matching overwrite semantics). -/
def FileStore := List (String × SaveFile)

instance : DecidableEq FileStore := by unfold FileStore; infer_instance

/-- Environment of `model_handle_input`: the save directory contents and the
directory listing order reported by `readdir`. `none` models a missing
directory. -/
structure Env where
  fs : List (String × SaveFile)
  listing : Option (List String)

-- ===== helper functions (model.c section 1) =====

/-- `check_collision` (model.c:24): AABB overlap, both entities active,
strict inequalities. -/
def check_collision (a b : Entity) : Bool :=
  if !a.active || !b.active then false
  else
    (a.x < b.x + b.width) && (a.x + a.width > b.x) &&
    (a.y < b.y + b.height) && (a.y + a.height > b.y)

/-- `spawn_bullet` (model.c:39): first-fit scan of the bullet pool; the first
inactive slot is (re)configured; no slot free means no change.  Modelled on
the pool list; the fields not assigned by the source keep the old slot's
values. -/
def spawn_bullet (x y dy : ℚ) (ty : EntityType) : List Entity → List Entity
  | [] => []
  | b :: rest =>
    if !b.active then
      { b with active := true, x := x, y := y, dx := 0, dy := dy,
               width := BULLET_WIDTH, height := BULLET_HEIGHT, type := ty,
               anim_timer := 0, anim_frame := 0 } :: rest
    else
      b :: spawn_bullet x y dy ty rest

/-- `save_file_exists` (model.c:67): the file can be opened in the save
directory. -/
def save_file_exists (fs : List (String × SaveFile)) (filename : String) : Bool :=
  (fs.lookup filename).isSome

/-- The candidate name `"<base>(<i>).dat"` probed by
`generate_unique_filename`. -/
def candidateName (base : String) (i : ℕ) : String :=
  base ++ "(" ++ toString i ++ ").dat"

/-- The probing loop of `generate_unique_filename` (model.c:89), made total
with fuel.  The C loop is unbounded; `fs.length + 1` probes always suffice to
reach a free candidate name whenever one exists in that range. -/
def genUniqueAux (fs : List (String × SaveFile)) (base : String) :
    ℕ → ℕ → Option String
  | 0, _ => none
  | fuel + 1, i =>
    if save_file_exists fs (candidateName base i) then
      genUniqueAux fs base fuel (i + 1)
    else
      some (candidateName base i)

/-- `generate_unique_filename` (model.c:89): probes `"<base>(1).dat"`,
`"<base>(2).dat"`, … in order and returns the first free one. -/
def generate_unique_filename (fs : List (String × SaveFile)) (base : String) :
    String :=
  (genUniqueAux fs base (fs.length + 1) 1).getD ""

-- ===== enemies & ufo (model.c section 2) =====

/-- The enemy written at slot `idx` by `init_enemies` (model.c:118):
`memset` to zero, then position and type from `row = idx / 11`,
`col = idx % 11`. -/
def formationEnemy (idx : ℕ) : Entity :=
  let row : ℕ := idx / 11
  let col : ℕ := idx % 11
  { zeroEntity with
    active := true, width := ENEMY_WIDTH, height := ENEMY_HEIGHT,
    x := 5 + (col : ℚ) * (ENEMY_WIDTH + 2),
    y := 7 + (row : ℚ) * (ENEMY_HEIGHT + 2),
    type := if row = 0 then ENTITY_ENEMY_TYPE_3
            else if row < 3 then ENTITY_ENEMY_TYPE_2
            else ENTITY_ENEMY_TYPE_1 }

/-- `init_enemies` (model.c:118): writes the 5×11 formation into slots
0..54 (the `idx >= MAX_ENEMIES` overflow guard never fires since
`MAX_ENEMIES = 60 ≥ 55`; slots 55..59 are left untouched), then resets the
group parameters and the ufo per-level state. -/
def init_enemies (m : GameModel) : GameModel :=
  { m with
    enemies := (List.range 55).map formationEnemy ++ m.enemies.drop 55,
    enemy_speed_mult := 1, direction_enemies := 1, drop_direction := 1,
    drop_step_count := 0,
    ufo := { m.ufo with active := false, hasSpawnedThisLevel := false, y := 4 } }

/-- `spawn_ufo` (model.c:177).  `draw` is the `rand()` value deciding the
entry side. -/
def spawn_ufo (m : GameModel) (draw : ℕ) : GameModel :=
  let u := { m.ufo with
             exploding := false, explode_timer := 0, active := true,
             hasSpawnedThisLevel := true, type := ENTITY_UFO,
             width := UFO_WIDTH, height := UFO_HEIGHT, y := 4 }
  if draw % 2 = 0 then
    { m with ufo := { u with x := -UFO_WIDTH, dx := UFO_SPEED } }
  else
    { m with ufo := { u with x := GAME_WIDTH, dx := -UFO_SPEED } }

-- ===== initialisation & reset (model.c section 3) =====

/-- `init_shields` (model.c:219): 4 equidistant shields, full health. -/
def init_shields (m : GameModel) : GameModel :=
  let shield_w : ℚ := 8
  let shield_h : ℚ := 6
  let spacing : ℚ := GAME_WIDTH / ((MAX_SHIELDS : ℚ) + 1)
  { m with
    shields := (List.range MAX_SHIELDS).map fun i =>
      { x := spacing * ((i : ℚ) + 1) - shield_w / 2,
        y := GAME_HEIGHT - PLAYER_HEIGHT - 9,
        width := shield_w, height := shield_h,
        health := SHIELD_MAX_HEALTH, active := true } }

/-- `model_init` (model.c:250): `calloc` zeroing followed by the explicit
defaults, then `init_enemies` and `init_shields`. -/
def model_init : GameModel :=
  let m := { zeroModel with
             state := STATE_MENU, lives := 3, normal_max_lives := 3,
             level := 1, volume := 30,
             player := { zeroEntity with
                         active := true, type := ENTITY_PLAYER,
                         width := PLAYER_WIDTH, height := PLAYER_HEIGHT,
                         x := (GAME_WIDTH - PLAYER_WIDTH) / 2,
                         y := GAME_HEIGHT - PLAYER_HEIGHT - 1 } }
  init_shields (init_enemies m)

/-- `reset_game` (model.c:296). -/
def reset_game (m : GameModel) : GameModel :=
  let m := { m with
             score := 0, lives := 3, level := 1, hit_timer := 0,
             enemy_speed_mult := 1, direction_enemies := 1,
             drop_direction := 1, drop_step_count := 0,
             bullets := List.replicate m.bullets.length zeroEntity,
             ufo := { m.ufo with active := false, hasSpawnedThisLevel := false },
             player := { m.player with
                         x := (GAME_WIDTH - PLAYER_WIDTH) / 2, dx := 0 } }
  { init_shields (init_enemies m) with state := STATE_PLAYING }

-- ===== file management (model.c section 7) =====

/-- Hidden-entry test of `model_scan_saves`: `d_name[0] == '.'`. -/
def nameHidden (s : String) : Bool :=
  s.toList.head? = some '.'

def datChars : List Char := ['.', 'd', 'a', 't']

/-- Does `pat` occur at the start of `l`? (helper for the `strstr` test). -/
def listStarts : List Char → List Char → Bool
  | [], _ => true
  | _ :: _, [] => false
  | p :: ps, c :: cs => p = c && listStarts ps cs

/-- `strstr(name, pat) != NULL`: `pat` occurs contiguously in `name`. -/
def strstrHas (pat : List Char) : List Char → Bool
  | [] => listStarts pat []
  | c :: cs => listStarts pat (c :: cs) || strstrHas pat cs

/-- The `.dat` test of `model_scan_saves`: `strstr(d_name, ".dat")`. -/
def nameHasDat (s : String) : Bool :=
  strstrHas datChars s.toList

/-- The `readdir` loop of `model_scan_saves` (model.c:1038): skip hidden
entries, record entries containing `".dat"` while fewer than
`MAX_SAVE_FILES` have been recorded, keep scanning to the end. -/
def scanSavesLoop : List String → ℕ → List String
  | [], _ => []
  | n :: rest, cnt =>
    if nameHidden n then scanSavesLoop rest cnt
    else if nameHasDat n then
      if cnt < MAX_SAVE_FILES then n :: scanSavesLoop rest (cnt + 1)
      else scanSavesLoop rest cnt
    else scanSavesLoop rest cnt

/-- `model_scan_saves` (model.c:1028).  `listing = none` models `opendir`
failing (missing directory): the count is zeroed and the function returns.
The recorded names replace the meaningful prefix of the `save_files` array
(slots beyond the count are never read by the rest of the program). -/
def model_scan_saves (m : GameModel) (listing : Option (List String)) :
    GameModel :=
  match listing with
  | none => { m with save_file_count := 0 }
  | some entries =>
    let recorded := scanSavesLoop entries 0
    { m with save_files := recorded,
             save_file_count := (recorded.length : ℤ) }

/-- `model_save_named` (model.c:1068): writes one whole `GameModel` record
under `filename`, replacing any previous content of that file. -/
def model_save_named (fs : List (String × SaveFile)) (filename : String)
    (m : GameModel) : List (String × SaveFile) :=
  (filename, SaveFile.full m) :: fs

/-- The fix-ups applied by `model_load_named` after adopting a loaded
snapshot (model.c:1116): force `STATE_PLAYING`, clear `hit_timer`, `memset`
the whole `sounds` block. -/
def loadFixups (t : GameModel) : GameModel :=
  { t with state := STATE_PLAYING, hit_timer := 0, sounds := soundsCleared }

/-- `model_load_named` (model.c:1100): returns `(ok, new model)`; a missing
file or a short read returns `false` and leaves the model untouched. -/
def model_load_named (fs : List (String × SaveFile)) (m : GameModel)
    (filename : String) : Bool × GameModel :=
  match fs.lookup filename with
  | none => (false, m)
  | some SaveFile.corrupt => (false, m)
  | some (SaveFile.full t) => (true, loadFixups t)

-- ===== input handling (model.c section 5) =====

/-- Result of `model_handle_input`: the new model, the new save-directory
contents, and whether the process called `exit(0)`. -/
structure HIOut where
  model : GameModel
  fs : List (String × SaveFile)
  exited : Bool
deriving DecidableEq

/-- `model_handle_input` (model.c:361), one block per state exactly as in
the source. -/
def model_handle_input (env : Env) (m : GameModel) (cmd : GameCommand) :
    HIOut :=
  -- 1. MENU PRINCIPAL
  if m.state = STATE_MENU then
    if cmd = CMD_EXIT then ⟨m, env.fs, true⟩
    else
      let sel := if cmd = CMD_UP then
                   (if m.menu_selection - 1 < 0 then 4 else m.menu_selection - 1)
                 else m.menu_selection
      let sel := if cmd = CMD_DOWN then
                   (if sel + 1 > 4 then 0 else sel + 1)
                 else sel
      let m := { m with menu_selection := sel }
      if m.menu_selection = 3 then
        let m := if cmd = CMD_LEFT ∨ cmd = CMD_MOVE_LEFT then
                   { m with volume := if m.volume - 10 < 0 then 0 else m.volume - 10,
                            is_muted := false }
                 else m
        let m := if cmd = CMD_RIGHT ∨ cmd = CMD_MOVE_RIGHT then
                   { m with volume := if m.volume + 10 > 100 then 100 else m.volume + 10,
                            is_muted := false }
                 else m
        let m := if cmd = CMD_SHOOT ∨ cmd = CMD_RETURN then
                   { m with is_muted := !m.is_muted }
                 else m
        ⟨m, env.fs, false⟩
      else if cmd = CMD_RETURN ∨ cmd = CMD_SHOOT then
        let m := { m with sounds := { m.sounds with play_select_sound := true } }
        if m.menu_selection = 0 then ⟨reset_game m, env.fs, false⟩
        else if m.menu_selection = 1 then
          ⟨{ m with state := STATE_TUTORIAL }, env.fs, false⟩
        else if m.menu_selection = 2 then
          let m := model_scan_saves m env.listing
          if m.save_file_count > 0 then
            ⟨{ m with state := STATE_LOAD_MENU, menu_selection := 0 }, env.fs, false⟩
          else
            ⟨{ m with state := STATE_LOAD_MENU }, env.fs, false⟩
        else if m.menu_selection = 4 then ⟨m, env.fs, true⟩
        else ⟨m, env.fs, false⟩
      else ⟨m, env.fs, false⟩
  -- 2. MENU CHARGEMENT
  else if m.state = STATE_LOAD_MENU then
    if cmd = CMD_EXIT ∨ cmd = CMD_PAUSE then
      ⟨{ m with state := STATE_MENU, menu_selection := 2 }, env.fs, false⟩
    else
      let sel := if cmd = CMD_UP then
                   (if m.menu_selection - 1 < 0 then m.save_file_count - 1
                    else m.menu_selection - 1)
                 else m.menu_selection
      let sel := if cmd = CMD_DOWN then
                   (if sel + 1 ≥ m.save_file_count then 0 else sel + 1)
                 else sel
      let m := { m with menu_selection := sel }
      if cmd = CMD_RETURN ∨ cmd = CMD_SHOOT then
        if m.save_file_count > 0 then
          let m := { m with sounds := { m.sounds with play_select_sound := true } }
          let name := m.save_files.getD m.menu_selection.toNat ""
          ⟨(model_load_named env.fs m name).2, env.fs, false⟩
        else ⟨m, env.fs, false⟩
      else ⟨m, env.fs, false⟩
  -- 3. TUTORIEL
  else if m.state = STATE_TUTORIAL then
    if cmd = CMD_EXIT ∨ cmd = CMD_PAUSE ∨ cmd = CMD_RETURN ∨ cmd = CMD_SHOOT then
      ⟨{ m with sounds := { m.sounds with play_select_sound := true },
                state := STATE_MENU, menu_selection := 1 }, env.fs, false⟩
    else ⟨m, env.fs, false⟩
  -- 4. JEU (PLAYING)
  else if m.state = STATE_PLAYING then
    if cmd = CMD_PAUSE then
      ⟨{ m with state := STATE_PAUSED, menu_selection := 0 }, env.fs, false⟩
    else
      let m := if cmd = CMD_MOVE_LEFT ∨ cmd = CMD_LEFT then
                 { m with player := { m.player with dx := -PLAYER_SPEED } }
               else if cmd = CMD_MOVE_RIGHT ∨ cmd = CMD_RIGHT then
                 { m with player := { m.player with dx := PLAYER_SPEED } }
               else if cmd = CMD_NONE then
                 { m with player := { m.player with dx := 0 } }
               else m
      if cmd = CMD_SHOOT ∧ m.player.shoot_timer ≤ 0 then
        ⟨{ m with bullets := spawn_bullet (m.player.x + 1.5) (m.player.y - 1)
                              (-BULLET_SPEED) ENTITY_BULLET_PLAYER m.bullets,
                  player := { m.player with shoot_timer := 0.5 },
                  sounds := { m.sounds with play_shoot := true } },
         env.fs, false⟩
      else ⟨m, env.fs, false⟩
  -- 5. PAUSE
  else if m.state = STATE_PAUSED then
    if cmd = CMD_PAUSE then
      ⟨{ m with state := STATE_PLAYING }, env.fs, false⟩
    else
      let sel := if cmd = CMD_UP then
                   (if m.menu_selection - 1 < 0 then 3 else m.menu_selection - 1)
                 else m.menu_selection
      let sel := if cmd = CMD_DOWN then
                   (if sel + 1 > 3 then 0 else sel + 1)
                 else sel
      let m := { m with menu_selection := sel }
      if m.menu_selection = 1 then
        let m := if cmd = CMD_LEFT then
                   { m with volume := if m.volume < 10 then 0 else m.volume - 10,
                            is_muted := false }
                 else m
        let m := if cmd = CMD_RIGHT then
                   { m with volume := if m.volume > 90 then 100 else m.volume + 10,
                            is_muted := false }
                 else m
        let m := if cmd = CMD_SHOOT ∨ cmd = CMD_RETURN then
                   { m with is_muted := !m.is_muted }
                 else m
        ⟨m, env.fs, false⟩
      else if cmd = CMD_RETURN ∨ cmd = CMD_SHOOT then
        let m := { m with sounds := { m.sounds with play_select_sound := true } }
        if m.menu_selection = 0 then
          ⟨{ m with state := STATE_PLAYING }, env.fs, false⟩
        else if m.menu_selection = 2 then
          let m := model_scan_saves m env.listing
          ⟨{ m with state := STATE_SAVE_SELECT, menu_selection := 0 }, env.fs, false⟩
        else if m.menu_selection = 3 then
          ⟨{ m with previous_state := STATE_PAUSED, state := STATE_CONFIRM_QUIT,
                    menu_selection := 1 }, env.fs, false⟩
        else ⟨m, env.fs, false⟩
      else ⟨m, env.fs, false⟩
  -- 6. GAME OVER
  else if m.state = STATE_GAME_OVER then
    let sel := if cmd = CMD_UP then
                 (if m.menu_selection - 1 < 0 then 2 else m.menu_selection - 1)
               else m.menu_selection
    let sel := if cmd = CMD_DOWN then
                 (if sel + 1 > 2 then 0 else sel + 1)
               else sel
    let m := { m with menu_selection := sel }
    if cmd = CMD_RETURN ∨ cmd = CMD_SHOOT then
      let m := { m with sounds := { m.sounds with play_select_sound := true } }
      if m.menu_selection = 0 then
        let m := model_scan_saves m env.listing
        ⟨{ m with state := STATE_SAVE_SELECT, menu_selection := 0 }, env.fs, false⟩
      else if m.menu_selection = 1 then ⟨reset_game m, env.fs, false⟩
      else if m.menu_selection = 2 then ⟨m, env.fs, true⟩
      else ⟨m, env.fs, false⟩
    else ⟨m, env.fs, false⟩
  -- 7A. CHOIX DU SLOT
  else if m.state = STATE_SAVE_SELECT then
    if cmd = CMD_PAUSE ∨ cmd = CMD_EXIT then
      ⟨{ m with state := STATE_PAUSED }, env.fs, false⟩
    else
      let mx := m.save_file_count
      let sel := if cmd = CMD_UP then
                   (if m.menu_selection - 1 < 0 then mx else m.menu_selection - 1)
                 else m.menu_selection
      let sel := if cmd = CMD_DOWN then
                   (if sel + 1 > mx then 0 else sel + 1)
                 else sel
      let m := { m with menu_selection := sel }
      if cmd = CMD_RETURN ∨ cmd = CMD_SHOOT then
        let m := { m with sounds := { m.sounds with play_select_sound := true } }
        if m.menu_selection = 0 then
          ⟨{ m with state := STATE_SAVE_INPUT, input_buffer := "" }, env.fs, false⟩
        else
          let f := m.save_files.getD (m.menu_selection - 1).toNat ""
          let len : ℤ := (f.length : ℤ) - 4
          let m := if len > 0 then { m with input_buffer := f.take len.toNat } else m
          ⟨{ m with state := STATE_OVERWRITE_CONFIRM, menu_selection := 0 },
           env.fs, false⟩
      else ⟨m, env.fs, false⟩
  -- 7B. SAISIE DU NOM
  else if m.state = STATE_SAVE_INPUT then
    if cmd = CMD_PAUSE then
      ⟨{ m with state := STATE_PAUSED }, env.fs, false⟩
    else if cmd = CMD_RETURN ∨ cmd = CMD_SHOOT then
      if m.input_buffer.length > 0 then
        let m := { m with sounds := { m.sounds with play_select_sound := true } }
        let filename := m.input_buffer ++ ".dat"
        if save_file_exists env.fs filename then
          ⟨{ m with state := STATE_OVERWRITE_CONFIRM, menu_selection := 1 },
           env.fs, false⟩
        else
          let fs := model_save_named env.fs filename m
          ⟨{ m with state := STATE_SAVE_SUCCESS, save_success_timer := 2 },
           fs, false⟩
      else ⟨m, env.fs, false⟩
    else if cmd = CMD_BACKSPACE then
      if m.input_buffer.length > 0 then
        ⟨{ m with input_buffer := m.input_buffer.dropRight 1 }, env.fs, false⟩
      else ⟨m, env.fs, false⟩
    else ⟨m, env.fs, false⟩
  -- 9. CONFIRMATION ECRASEMENT
  else if m.state = STATE_OVERWRITE_CONFIRM then
    if cmd = CMD_LEFT ∨ cmd = CMD_RIGHT ∨ cmd = CMD_UP ∨ cmd = CMD_DOWN then
      ⟨{ m with menu_selection := if m.menu_selection = 0 then 1 else 0 },
       env.fs, false⟩
    else if cmd = CMD_RETURN ∨ cmd = CMD_SHOOT then
      let m := { m with sounds := { m.sounds with play_select_sound := true } }
      if m.menu_selection = 0 then
        let filename := m.input_buffer ++ ".dat"
        let fs := model_save_named env.fs filename m
        ⟨{ m with state := STATE_SAVE_SUCCESS, save_success_timer := 2 },
         fs, false⟩
      else
        let new_name := generate_unique_filename env.fs m.input_buffer
        let fs := model_save_named env.fs new_name m
        ⟨{ m with state := STATE_SAVE_SUCCESS, save_success_timer := 2 },
         fs, false⟩
    else if cmd = CMD_PAUSE then
      ⟨{ m with state := STATE_SAVE_INPUT }, env.fs, false⟩
    else ⟨m, env.fs, false⟩
  -- 8. CONFIRMATION QUITTER
  else if m.state = STATE_CONFIRM_QUIT then
    let sel := if cmd = CMD_UP then
                 (if m.menu_selection - 1 < 0 then 2 else m.menu_selection - 1)
               else m.menu_selection
    let sel := if cmd = CMD_DOWN then
                 (if sel + 1 > 2 then 0 else sel + 1)
               else sel
    let m := { m with menu_selection := sel }
    if cmd = CMD_RETURN ∨ cmd = CMD_SHOOT then
      let m := { m with sounds := { m.sounds with play_select_sound := true } }
      if m.menu_selection = 0 then ⟨m, env.fs, true⟩
      else if m.menu_selection = 1 then
        ⟨{ m with state := if m.previous_state = STATE_GAME_OVER then
                             STATE_GAME_OVER else STATE_PAUSED,
                  menu_selection := 3 }, env.fs, false⟩
      else if m.menu_selection = 2 then
        let m := model_scan_saves m env.listing
        ⟨{ m with state := STATE_SAVE_SELECT, menu_selection := 0 }, env.fs, false⟩
      else ⟨m, env.fs, false⟩
    else ⟨m, env.fs, false⟩
  else ⟨m, env.fs, false⟩

-- ===== simulation step (model.c section 6, `model_update`) =====

/-- Section B of `model_update` (model.c:778): shoot cooldown and
hit-invulnerability decrements, beat computation, animation toggle. -/
def stepTimers (m : GameModel) (dt : ℚ) : GameModel :=
  let shoot := if m.player.shoot_timer > 0 then m.player.shoot_timer - dt
               else m.player.shoot_timer
  let hit := if m.hit_timer > 0 then m.hit_timer - dt else m.hit_timer
  let beat0 : ℚ := 0.5 - (m.level : ℚ) * 0.05
  let beat : ℚ := if beat0 < 0.05 then 0.05 else beat0
  let atimer := m.animation_timer + dt
  if atimer ≥ beat then
    { m with player := { m.player with shoot_timer := shoot }, hit_timer := hit,
             animation_frame := if m.animation_frame = 0 then 1 else 0,
             animation_timer := 0,
             sounds := { m.sounds with
                         play_beat := true,
                         beat_index := (m.sounds.beat_index + 1).tmod 4 } }
  else
    { m with player := { m.player with shoot_timer := shoot }, hit_timer := hit,
             animation_timer := atimer }

/-- Section C of `model_update` (model.c:797): integrate the player position
and clamp it (two sequential `if`s in the source). -/
def stepPlayer (m : GameModel) (dt : ℚ) : GameModel :=
  if m.player.active then
    let x1 := m.player.x + m.player.dx * dt
    let x2 := if x1 < 0 then 0 else x1
    let x3 := if x2 > GAME_WIDTH - PLAYER_WIDTH then GAME_WIDTH - PLAYER_WIDTH else x2
    { m with player := { m.player with x := x3 } }
  else m

/-- Section D of `model_update` (model.c:807): ufo explosion/flight, or the
spawn roll when inactive.  Returns the remaining random stream. -/
def stepUfo (m : GameModel) (dt : ℚ) (rng : List ℕ) : GameModel × List ℕ :=
  if m.ufo.active then
    if m.ufo.exploding then
      let t := m.ufo.explode_timer - dt
      ({ m with sounds := { m.sounds with ufo_loopING := !m.ufo.exploding },
                ufo := { m.ufo with
                         explode_timer := t,
                         active := if t ≤ 0 then false else m.ufo.active } }, rng)
    else
      let x1 := m.ufo.x + m.ufo.dx * dt
      let off := (m.ufo.dx > 0 && x1 > GAME_WIDTH) ||
                 (m.ufo.dx < 0 && x1 < -UFO_WIDTH)
      ({ m with sounds := { m.sounds with ufo_loopING := !m.ufo.exploding },
                ufo := { m.ufo with
                         x := x1,
                         active := if off then false else m.ufo.active } }, rng)
  else
    let enemies_alive := m.enemies.any (fun e => e.active)
    if !m.ufo.hasSpawnedThisLevel && enemies_alive then
      if rng.headD 0 % 500 = 0 then
        (spawn_ufo { m with sounds := { m.sounds with ufo_loopING := false } }
          (rng.tail.headD 0), rng.tail.tail)
      else ({ m with sounds := { m.sounds with ufo_loopING := false } }, rng.tail)
    else ({ m with sounds := { m.sounds with ufo_loopING := false } }, rng)

/-- The per-enemy explosion update done inside the first loop of section E
(model.c:848): only active, exploding enemies are touched. -/
def stepExplode (dt : ℚ) (e : Entity) : Entity :=
  if e.active && e.exploding then
    let t := e.explode_timer - dt
    { e with explode_timer := t, active := if t ≤ 0 then false else e.active }
  else e

/-- The `active_enemies` count of section E: active, non-exploding. -/
def countActive (es : List Entity) : ℕ :=
  (es.filter (fun e => e.active && !e.exploding)).length

/-- The `touch_edge` test of section E. -/
def touchEdge (es : List Entity) (dir : ℤ) : Bool :=
  es.any (fun e => e.active && !e.exploding &&
    ((e.x ≤ 0 && dir = -1) || (e.x ≥ GAME_WIDTH - ENEMY_WIDTH && dir = 1)))

/-- Section E of `model_update` (model.c:844): explosion updates, level
transition (second component `true` means the rest of the step is skipped),
edge handling with the vertical drop oscillator, or plain lateral motion. -/
def stepEnemies (m : GameModel) (dt : ℚ) : GameModel × Bool :=
  let es := m.enemies.map (stepExplode dt)
  if countActive es = 0 ∧ m.ufo.active = false then
    (init_enemies { m with
                    enemies := es,
                    level := m.level + 1,
                    sounds := { m.sounds with play_level_up := true } }, true)
  else if touchEdge es m.direction_enemies then
    let dir := -m.direction_enemies
    let dy := if m.drop_direction = (1 : ℤ) then ENEMY_DROP_HEIGHT else -ENEMY_DROP_HEIGHT
    let (cnt, dd) : ℤ × ℤ :=
      if m.drop_direction = (1 : ℤ) then
        let c := m.drop_step_count + 1
        (c, if c ≥ 3 then -1 else m.drop_direction)
      else
        let c := m.drop_step_count - 1
        (c, if c ≤ 0 then 1 else m.drop_direction)
    ({ m with direction_enemies := dir, drop_step_count := cnt,
              drop_direction := dd,
              enemies := es.map fun e =>
                if e.active && !e.exploding then
                  { e with y := e.y + dy, x := e.x + (dir : ℚ) * 2 }
                else e }, false)
  else
    let spd := ENEMY_SPEED_BASE * m.enemy_speed_mult * (m.direction_enemies : ℚ)
    ({ m with enemies := es.map fun e =>
        if e.active && !e.exploding then { e with x := e.x + spd * dt } else e },
     false)

/-- The candidate loop of the enemy-fire block (model.c:906): up to 10 random
indices, fire from the first active non-exploding enemy found. -/
def fireLoop (m : GameModel) (rng : List ℕ) : ℕ → GameModel
  | 0 => m
  | k + 1 =>
    let idx := rng.headD 0 % MAX_ENEMIES
    match m.enemies.get? idx with
    | some e =>
      if e.active && !e.exploding then
        { m with bullets := spawn_bullet (e.x + ENEMY_WIDTH / 2) (e.y + ENEMY_HEIGHT)
                              (BULLET_SPEED * 0.6) ENTITY_BULLET_ENEMY m.bullets }
      else fireLoop m rng.tail k
    | none => fireLoop m rng.tail k

/-- The enemy-fire block of `model_update` (model.c:904). -/
def enemyFire (m : GameModel) (rng : List ℕ) : GameModel :=
  if ((rng.headD 0 % 100 : ℕ) : ℤ) < m.level * 2 then
    fireLoop m rng.tail 10
  else m

/-- The per-bullet motion and animation advance at the top of the bullet
loop (model.c:924). -/
def moveBullet (dt : ℚ) (b : Entity) : Entity :=
  let b := { b with y := b.y + b.dy * dt, anim_timer := b.anim_timer + dt }
  if b.anim_timer > 0.1 then
    { b with anim_timer := 0, anim_frame := (b.anim_frame + 1).tmod 4 }
  else b

/-- The shield test of a bullet (model.c:943): strict AABB overlap against an
active shield (the bullet's own `active` flag is not consulted here). -/
def shieldHit (b : Entity) (sh : Shield) : Bool :=
  sh.active &&
  (b.x < sh.x + sh.width) && (b.x + b.width > sh.x) &&
  (b.y < sh.y + sh.height) && (b.y + b.height > sh.y)

/-- The shield loop of the bullet phase (model.c:939): the first active
overlapping shield absorbs the bullet and loses one health point,
deactivating at health ≤ 0.  `none` means no shield was hit. -/
def hitShields (b : Entity) : List Shield → Option (List Shield)
  | [] => none
  | sh :: rest =>
    if shieldHit b sh then
      let h := sh.health - 1
      some ({ sh with
              health := h,
              active := if h ≤ 0 then false else sh.active } :: rest)
    else
      (hitShields b rest).map (fun l => sh :: l)

/-- The ufo test of a player bullet (model.c:964): inline strict AABB
overlap against the ufo record. -/
def bulletHitsUfo (b : Entity) (u : Ufo) : Bool :=
  (b.x < u.x + u.width) && (b.x + b.width > u.x) &&
  (b.y < u.y + u.height) && (b.y + b.height > u.y)

/-- Per-type score of a destroyed enemy (model.c:986). -/
def pointsFor (t : EntityType) : ℤ :=
  if t = ENTITY_ENEMY_TYPE_1 then 10
  else if t = ENTITY_ENEMY_TYPE_2 then 20
  else 30

/-- The enemy scan of a player bullet (model.c:979): the first active,
non-exploding overlapping enemy is marked exploding; returns the updated
list and the awarded points, or `none` when no enemy was hit. -/
def hitEnemies (b : Entity) : List Entity → Option (List Entity × ℤ)
  | [] => none
  | e :: rest =>
    if e.active && !e.exploding && check_collision b e then
      some ({ e with exploding := true, explode_timer := 0.2 } :: rest,
            pointsFor e.type)
    else
      (hitEnemies b rest).map (fun p => (e :: p.1, p.2))

/-- One iteration of the bullet loop (model.c:918) on a single bullet slot:
returns the updated model (its `bullets` field is not meaningful here) and
the updated slot. -/
def stepBullet (dt : ℚ) (m : GameModel) (b0 : Entity) : GameModel × Entity :=
  if !b0.active then (m, b0)
  else
    let b := moveBullet dt b0
    if b.y < -10 ∨ b.y > GAME_HEIGHT then (m, { b with active := false })
    else
      match hitShields b m.shields with
      | some shields1 => ({ m with shields := shields1 }, { b with active := false })
      | none =>
        if b.type = ENTITY_BULLET_PLAYER then
          if m.ufo.active && !m.ufo.exploding && bulletHitsUfo b m.ufo then
            ({ m with ufo := { m.ufo with exploding := true, explode_timer := 0.5 },
                      score := m.score + 100, lives := m.lives + 1,
                      sounds := { m.sounds with play_invader_killed := true } },
             { b with active := false })
          else
            match hitEnemies b m.enemies with
            | some (es, pts) =>
              ({ m with enemies := es, score := m.score + pts,
                        sounds := { m.sounds with play_invader_killed := true } },
               { b with active := false })
            | none => (m, b)
        else
          if m.player.active && m.hit_timer ≤ 0 && check_collision b m.player then
            let lives1 := m.lives - 1
            if lives1 ≤ 0 then
              ({ m with lives := lives1, hit_timer := 2,
                        state := STATE_GAME_OVER,
                        sounds := { m.sounds with
                                    play_player_explosion := true,
                                    play_game_over := true },
                        menu_selection := 0, game_over_timer := 0 },
               { b with active := false })
            else
              ({ m with lives := lives1, hit_timer := 2,
                        sounds := { m.sounds with play_player_explosion := true } },
               { b with active := false })
          else (m, b)

/-- The bullet loop of section F, slot by slot in index order; the model
threaded through carries the shield/ufo/enemy/score/lives mutations of the
earlier slots. -/
def bulletsFold (dt : ℚ) : GameModel → List Entity → GameModel × List Entity
  | m, [] => (m, [])
  | m, b :: rest =>
    let r1 := stepBullet dt m b
    let r2 := bulletsFold dt r1.1 rest
    (r2.1, r1.2 :: r2.2)

/-- Section F of `model_update` (model.c:917). -/
def stepBullets (m : GameModel) (dt : ℚ) : GameModel :=
  let r := bulletsFold dt m m.bullets
  { r.1 with bullets := r.2 }

/-- The `STATE_PLAYING` body of `model_update` (model.c:778-1012). -/
def playingStep (m : GameModel) (dt : ℚ) (rng : List ℕ) : GameModel :=
  let m1 := stepTimers m dt
  let m2 := stepPlayer m1 dt
  let r3 := stepUfo m2 dt rng
  let r4 := stepEnemies r3.1 dt
  if r4.2 then r4.1
  else stepBullets (enemyFire r4.1 r3.2) dt

/-- `model_update` (model.c:760): the special states, then the playing body.
The second component records whether the process called `exit(0)` (the
save-success banner expiring). -/
def model_update (m : GameModel) (dt : ℚ) (rng : List ℕ) : GameModel × Bool :=
  if m.state = STATE_SAVE_SUCCESS then
    let t := m.save_success_timer - dt
    ({ m with save_success_timer := t }, t ≤ 0)
  else if m.state = STATE_GAME_OVER then
    ({ m with game_over_timer := m.game_over_timer + dt }, false)
  else if m.state ≠ STATE_PLAYING then (m, false)
  else (playingStep m dt rng, false)

-- ===== derived predicates used by the verification =====

/-- Invariant of one barrier: health in `[0, SHIELD_MAX_HEALTH]`, and an
active barrier has positive health. -/
def ShieldInv (sh : Shield) : Prop :=
  0 ≤ sh.health ∧ sh.health ≤ SHIELD_MAX_HEALTH ∧ (sh.active = true → 0 < sh.health)

instance (sh : Shield) : Decidable (ShieldInv sh) := by
  unfold ShieldInv
  infer_instance

/-- Pointwise: each shield of the first array has health at most that of the
corresponding shield of the second array. -/
def shieldsLe : List Shield → List Shield → Prop
  | [], [] => True
  | a :: l, b :: r => a.health ≤ b.health ∧ shieldsLe l r
  | _, _ => False

/-- Pointwise one-step relation between the shield array after and before a
simulation step: health never increases, and `ShieldInv` is preserved. -/
def shieldStepOk (nw old : Shield) : Prop :=
  nw.health ≤ old.health ∧ (ShieldInv old → ShieldInv nw)

/-- `shieldStepOk` pointwise on arrays. -/
def shieldsRel : List Shield → List Shield → Prop
  | [], [] => True
  | a :: l, b :: r => shieldStepOk a b ∧ shieldsRel l r
  | _, _ => False

-- ===== concrete models used by witnesses =====

/-- The initial model switched to `STATE_PLAYING` (used by witnesses). -/
def mPlay : GameModel := { model_init with state := STATE_PLAYING }

/-- A playing model whose bullet pool is entirely active (used by
witnesses). -/
def mPoolFull : GameModel :=
  { model_init with
    state := STATE_PLAYING,
    bullets := List.replicate MAX_BULLETS { zeroEntity with active := true } }

/-- A playing model with every enemy slot inactive and the flyer inactive
(used by witnesses: triggers a level transition). -/
def mClear : GameModel :=
  { model_init with
    state := STATE_PLAYING,
    enemies := List.replicate MAX_ENEMIES zeroEntity }

/-- A playing model with the player at `x = 47` moving right at full speed
(used by witnesses, matching the spec's worked example). -/
def mRight : GameModel :=
  { model_init with
    state := STATE_PLAYING,
    player := { model_init.player with x := 47, dx := 40 } }

/-- A playing model with a fresh hit-invulnerability window (used by
witnesses). -/
def mInvuln : GameModel :=
  { model_init with state := STATE_PLAYING, hit_timer := 1 }

/-- A concrete enemy bullet just above the player (used by witnesses). -/
def bEnemy : Entity :=
  { zeroEntity with
    active := true, type := ENTITY_BULLET_ENEMY, x := 48, y := 47,
    width := 1, height := 1, dy := 36 }

-- ========================================================================
--                               THEOREMS
-- ========================================================================

/-- C1: Saving any game model with `model_save_named` and loading the
written file back with `model_load_named` succeeds and reproduces every
field of the saved model except the flow-state (forced to
`STATE_PLAYING`), the hit-invulnerability timer (forced to 0) and the
audio-request block (forced entirely to cleared); in particular score,
lives, level, volume, mute, every entity slot and every barrier are
reproduced exactly. -/
theorem save_load_round_trip (fs : List (String × SaveFile)) (m mcur : GameModel)
    (name : String) :
    (model_load_named (model_save_named fs name m) mcur name).1 = true ∧
    ((model_load_named (model_save_named fs name m) mcur name).2.state = STATE_PLAYING ∧
     (model_load_named (model_save_named fs name m) mcur name).2.hit_timer = 0 ∧
     (model_load_named (model_save_named fs name m) mcur name).2.sounds = soundsCleared) ∧
    ((model_load_named (model_save_named fs name m) mcur name).2.previous_state = m.previous_state ∧
     (model_load_named (model_save_named fs name m) mcur name).2.player = m.player ∧
     (model_load_named (model_save_named fs name m) mcur name).2.enemies = m.enemies ∧
     (model_load_named (model_save_named fs name m) mcur name).2.bullets = m.bullets ∧
     (model_load_named (model_save_named fs name m) mcur name).2.ufo = m.ufo ∧
     (model_load_named (model_save_named fs name m) mcur name).2.shields = m.shields ∧
     (model_load_named (model_save_named fs name m) mcur name).2.score = m.score ∧
     (model_load_named (model_save_named fs name m) mcur name).2.lives = m.lives ∧
     (model_load_named (model_save_named fs name m) mcur name).2.level = m.level ∧
     (model_load_named (model_save_named fs name m) mcur name).2.normal_max_lives = m.normal_max_lives ∧
     (model_load_named (model_save_named fs name m) mcur name).2.enemy_speed_mult = m.enemy_speed_mult ∧
     (model_load_named (model_save_named fs name m) mcur name).2.direction_enemies = m.direction_enemies ∧
     (model_load_named (model_save_named fs name m) mcur name).2.drop_direction = m.drop_direction ∧
     (model_load_named (model_save_named fs name m) mcur name).2.drop_step_count = m.drop_step_count ∧
     (model_load_named (model_save_named fs name m) mcur name).2.animation_frame = m.animation_frame ∧
     (model_load_named (model_save_named fs name m) mcur name).2.animation_timer = m.animation_timer ∧
     (model_load_named (model_save_named fs name m) mcur name).2.game_over_timer = m.game_over_timer ∧
     (model_load_named (model_save_named fs name m) mcur name).2.save_success_timer = m.save_success_timer ∧
     (model_load_named (model_save_named fs name m) mcur name).2.menu_selection = m.menu_selection ∧
     (model_load_named (model_save_named fs name m) mcur name).2.input_buffer = m.input_buffer ∧
     (model_load_named (model_save_named fs name m) mcur name).2.save_files = m.save_files ∧
     (model_load_named (model_save_named fs name m) mcur name).2.save_file_count = m.save_file_count ∧
     (model_load_named (model_save_named fs name m) mcur name).2.current_filename = m.current_filename ∧
     (model_load_named (model_save_named fs name m) mcur name).2.pending_quit = m.pending_quit ∧
     (model_load_named (model_save_named fs name m) mcur name).2.volume = m.volume ∧
     (model_load_named (model_save_named fs name m) mcur name).2.is_muted = m.is_muted) := by
  simp [model_load_named, model_save_named, loadFixups, List.lookup]

/-- C2: If the looked-up save file is missing or its read yields less than
one full record, `model_load_named` reports `false` and returns the current
model entirely unchanged. -/
theorem load_failure_no_mutation (fs : List (String × SaveFile)) (m : GameModel)
    (name : String)
    (h : fs.lookup name = none ∨ fs.lookup name = some SaveFile.corrupt) :
    model_load_named fs m name = (false, m) := by
  rcases h with h | h <;> simp [model_load_named, h]

/-- Witness for C2 at a concrete input: the empty save directory. -/
theorem load_failure_no_mutation_witness :
    (([] : List (String × SaveFile)).lookup "partie1.dat" = none) ∧
    model_load_named [] model_init "partie1.dat" = (false, model_init) :=
  ⟨rfl, load_failure_no_mutation [] model_init "partie1.dat" (Or.inl rfl)⟩

/-- The scan loop records, in arrival order, the first
`MAX_SAVE_FILES - cnt` non-hidden entries containing `".dat"`. -/
theorem scanSavesLoop_eq (entries : List String) :
    ∀ cnt, scanSavesLoop entries cnt =
      (entries.filter (fun n => !nameHidden n && nameHasDat n)).take
        (MAX_SAVE_FILES - cnt) := by
  induction entries with
  | nil => intro cnt; simp [scanSavesLoop]
  | cons n rest ih =>
    intro cnt
    by_cases h1 : nameHidden n
    · simp [scanSavesLoop, h1, ih cnt]
    · by_cases h2 : nameHasDat n
      · by_cases h3 : cnt < MAX_SAVE_FILES
        · have hs : MAX_SAVE_FILES - cnt = (MAX_SAVE_FILES - (cnt + 1)) + 1 := by
            unfold MAX_SAVE_FILES at h3 ⊢; omega
          simp [scanSavesLoop, h1, h2, h3, ih (cnt + 1), hs, List.filter_cons]
        · have hs : MAX_SAVE_FILES - cnt = 0 := by
            unfold MAX_SAVE_FILES at h3 ⊢; omega
          simp [scanSavesLoop, h1, h2, h3, ih cnt, hs]
      · simp [scanSavesLoop, h1, h2, ih cnt]

/-- C6 (counterexample): the scan uses `strstr`, a substring test, not a
suffix test: the entry `"a.datx"` does not end in `".dat"` yet it is
recorded and counted. -/
theorem scan_suffix_counterexample :
    (model_scan_saves model_init (some ["a.datx"])).save_files = ["a.datx"] ∧
    (model_scan_saves model_init (some ["a.datx"])).save_file_count = 1 ∧
    ¬ (datChars <:+ "a.datx".toList) := by
  refine ⟨?_, ?_, ?_⟩ <;> decide

/-- C6 (amended): `model_scan_saves` records exactly the non-hidden entries
whose names contain the case-sensitive substring `".dat"` (not necessarily
as a suffix), in the arrival order reported by the filesystem, stopping at
`MAX_SAVE_FILES = 10` recorded entries, and sets `save_file_count` to the
number recorded; a missing directory yields count 0. -/
theorem scan_records_dat_entries (m : GameModel) (entries : List String) :
    (model_scan_saves m (some entries)).save_files =
      (entries.filter (fun n => !nameHidden n && nameHasDat n)).take MAX_SAVE_FILES ∧
    (model_scan_saves m (some entries)).save_file_count =
      (((entries.filter (fun n => !nameHidden n && nameHasDat n)).take
          MAX_SAVE_FILES).length : ℤ) ∧
    (model_scan_saves m none).save_file_count = 0 := by
  have h := scanSavesLoop_eq entries 0
  simp only [Nat.sub_zero] at h
  exact ⟨by simp [model_scan_saves, h], by simp [model_scan_saves, h],
         by simp [model_scan_saves]⟩

/-- In `STATE_LOAD_MENU`, `CMD_UP` sets the cursor by the source formula. -/
theorem load_menu_up_eq (env : Env) (m : GameModel)
    (hst : m.state = STATE_LOAD_MENU) :
    (model_handle_input env m CMD_UP).model.menu_selection =
      (if m.menu_selection - 1 < 0 then m.save_file_count - 1
       else m.menu_selection - 1) := by
  simp [model_handle_input, hst]

/-- In `STATE_LOAD_MENU`, `CMD_DOWN` sets the cursor by the source formula. -/
theorem load_menu_down_eq (env : Env) (m : GameModel)
    (hst : m.state = STATE_LOAD_MENU) :
    (model_handle_input env m CMD_DOWN).model.menu_selection =
      (if m.menu_selection + 1 ≥ m.save_file_count then 0
       else m.menu_selection + 1) := by
  simp [model_handle_input, hst]

/-- C5 (counterexample): in the load menu with zero cached save files, the
`Up` command does not leave the cursor unchanged: from cursor 0 it moves it
to `-1` (the C expression `save_file_count - 1`). -/
theorem load_menu_zero_not_noop :
    ({ model_init with state := STATE_LOAD_MENU } : GameModel).save_file_count = 0 ∧
    ({ model_init with state := STATE_LOAD_MENU } : GameModel).menu_selection = 0 ∧
    (model_handle_input ⟨[], none⟩ { model_init with state := STATE_LOAD_MENU }
        CMD_UP).model.menu_selection = -1 := by
  refine ⟨?_, ?_, ?_⟩ <;> with_unfolding_all decide

/-- C5 (amended): in the load menu, when the cached count is `n > 0` and the
cursor lies in `[0, n-1]`, `Up` and `Down` cycle over `[0, n-1]` with
wrap-around; when the count is 0 the commands are not a no-op: `Up` moves
the cursor to `cursor - 1`, or to `-1` when `cursor - 1 < 0`, and `Down`
moves it to 0 whenever `cursor + 1 ≥ 0`. -/
theorem load_menu_navigation (env : Env) (m : GameModel)
    (hst : m.state = STATE_LOAD_MENU) :
    (0 < m.save_file_count → 0 ≤ m.menu_selection →
     m.menu_selection < m.save_file_count →
      ((model_handle_input env m CMD_UP).model.menu_selection =
        (if m.menu_selection = 0 then m.save_file_count - 1
         else m.menu_selection - 1)) ∧
      ((model_handle_input env m CMD_DOWN).model.menu_selection =
        (if m.menu_selection = m.save_file_count - 1 then 0
         else m.menu_selection + 1))) ∧
    (m.save_file_count = 0 →
      ((model_handle_input env m CMD_UP).model.menu_selection =
        (if m.menu_selection - 1 < 0 then -1 else m.menu_selection - 1)) ∧
      ((model_handle_input env m CMD_DOWN).model.menu_selection =
        (if 0 ≤ m.menu_selection + 1 then 0 else m.menu_selection + 1))) := by
  constructor
  · intro hpos h0 hlt
    rw [load_menu_up_eq env m hst, load_menu_down_eq env m hst]
    constructor <;> split_ifs <;> omega
  · intro hz
    rw [load_menu_up_eq env m hst, load_menu_down_eq env m hst, hz]
    constructor <;> split_ifs <;> omega

/-- Witness for C5 at a concrete input: two cached files, cursor on the
last entry. -/
theorem load_menu_navigation_witness :
    (({ model_init with
        state := STATE_LOAD_MENU, save_files := ["a.dat", "b.dat"],
        save_file_count := 2, menu_selection := 1 } : GameModel).state =
          STATE_LOAD_MENU) ∧
    ((0 : ℤ) < 2 → (0 : ℤ) ≤ 1 → (1 : ℤ) < 2 →
      ((model_handle_input ⟨[], none⟩
        { model_init with
          state := STATE_LOAD_MENU, save_files := ["a.dat", "b.dat"],
          save_file_count := 2, menu_selection := 1 } CMD_UP).model.menu_selection =
        (if (1 : ℤ) = 0 then 2 - 1 else 1 - 1)) ∧
      ((model_handle_input ⟨[], none⟩
        { model_init with
          state := STATE_LOAD_MENU, save_files := ["a.dat", "b.dat"],
          save_file_count := 2, menu_selection := 1 } CMD_DOWN).model.menu_selection =
        (if (1 : ℤ) = 2 - 1 then 0 else 1 + 1))) := by
  refine ⟨rfl, ?_⟩
  exact (load_menu_navigation ⟨[], none⟩
    { model_init with
      state := STATE_LOAD_MENU, save_files := ["a.dat", "b.dat"],
      save_file_count := 2, menu_selection := 1 } rfl).1

/-- A fully active bullet pool has no free slot: `spawn_bullet` changes
nothing. -/
theorem spawn_bullet_full (x y dy : ℚ) (ty : EntityType) :
    ∀ bs : List Entity, (∀ b ∈ bs, b.active = true) →
      spawn_bullet x y dy ty bs = bs := by
  intro bs
  induction bs with
  | nil => intro _; rfl
  | cons b rest ih =>
    intro h
    have hb : b.active = true := h b (by simp)
    simp only [spawn_bullet, hb, Bool.not_true, Bool.false_eq_true, if_false]
    rw [ih fun c hc => h c (by simp [hc])]

/-- C9: in `STATE_PLAYING`, a `Shoot` command arriving with the shoot
cooldown ≤ 0 while every one of the bullet-pool slots is active leaves the
bullet pool entirely unchanged, yet still resets the player's shoot
cooldown to 0.5 seconds and raises the shoot audio flag. -/
theorem shoot_full_pool (env : Env) (m : GameModel)
    (hst : m.state = STATE_PLAYING) (hcool : m.player.shoot_timer ≤ 0)
    (hfull : ∀ b ∈ m.bullets, b.active = true) :
    (model_handle_input env m CMD_SHOOT).model.bullets = m.bullets ∧
    (model_handle_input env m CMD_SHOOT).model.player.shoot_timer = 0.5 ∧
    (model_handle_input env m CMD_SHOOT).model.sounds.play_shoot = true := by
  simp [model_handle_input, hst, hcool, spawn_bullet_full _ _ _ _ _ hfull]

/-- Witness for C9 at a concrete input: the fully active pool `mPoolFull`. -/
theorem shoot_full_pool_witness :
    (mPoolFull.state = STATE_PLAYING ∧ mPoolFull.player.shoot_timer ≤ 0 ∧
     ∀ b ∈ mPoolFull.bullets, b.active = true) ∧
    ((model_handle_input ⟨[], none⟩ mPoolFull CMD_SHOOT).model.bullets =
       mPoolFull.bullets ∧
     (model_handle_input ⟨[], none⟩ mPoolFull CMD_SHOOT).model.player.shoot_timer =
       0.5 ∧
     (model_handle_input ⟨[], none⟩ mPoolFull CMD_SHOOT).model.sounds.play_shoot =
       true) := by
  have h1 : mPoolFull.state = STATE_PLAYING := rfl
  have h2 : mPoolFull.player.shoot_timer ≤ 0 := by with_unfolding_all decide
  have h3 : ∀ b ∈ mPoolFull.bullets, b.active = true := by
    with_unfolding_all decide
  exact ⟨⟨h1, h2, h3⟩, shoot_full_pool ⟨[], none⟩ mPoolFull h1 h2 h3⟩

/-- The probing loop of `generate_unique_filename` returns the first free
candidate at or after the starting index, provided some candidate within
`fuel` probes is free. -/
theorem genUniqueAux_finds (fs : List (String × SaveFile)) (base : String) :
    ∀ fuel i,
      (∃ d, d < fuel ∧
        save_file_exists fs (candidateName base (i + d)) = false) →
      ∃ j, i ≤ j ∧ genUniqueAux fs base fuel i = some (candidateName base j) ∧
        save_file_exists fs (candidateName base j) = false ∧
        ∀ k, i ≤ k → k < j → save_file_exists fs (candidateName base k) = true := by
  intro fuel
  induction fuel with
  | zero =>
    rintro i ⟨d, hd, _⟩
    omega
  | succ fuel ih =>
    rintro i ⟨d, hd, hfree⟩
    by_cases h : save_file_exists fs (candidateName base i) = true
    · have hd0 : d ≠ 0 := by
        rintro rfl
        rw [Nat.add_zero] at hfree
        rw [h] at hfree
        exact absurd hfree (by simp)
      have hshift : i + 1 + (d - 1) = i + d := by omega
      obtain ⟨j, hij, hres, hjf, hmin⟩ :=
        ih (i + 1) ⟨d - 1, by omega, by rw [hshift]; exact hfree⟩
      refine ⟨j, by omega, ?_, hjf, ?_⟩
      · simp [genUniqueAux, h, hres]
      · intro k hk hkj
        rcases Nat.eq_or_lt_of_le hk with rfl | hlt
        · exact h
        · exact hmin k (by omega) hkj
    · refine ⟨i, Nat.le_refl i, ?_, by simpa using h, ?_⟩
      · simp [genUniqueAux, h]
      · intro k hk hkj
        omega

/-- C8: confirming "keep both" in `STATE_OVERWRITE_CONFIRM` writes the save
under the first name among `"<base>(1).dat"`, `"<base>(2).dat"`, … (probed
in increasing order) that does not already exist, hence never overwrites an
existing file; in particular, with `"Run(1).dat"` present and
`"Run(2).dat"` absent, base `"Run"` is saved as `"Run(2).dat"`. -/
theorem keep_both_never_overwrites (env : Env) (m : GameModel)
    (hst : m.state = STATE_OVERWRITE_CONFIRM) (hsel : m.menu_selection ≠ 0)
    (hfree : ∃ i, 1 ≤ i ∧ i ≤ env.fs.length + 1 ∧
      save_file_exists env.fs (candidateName m.input_buffer i) = false) :
    (∃ j, 1 ≤ j ∧
      generate_unique_filename env.fs m.input_buffer =
        candidateName m.input_buffer j ∧
      save_file_exists env.fs (candidateName m.input_buffer j) = false ∧
      ∀ k, 1 ≤ k → k < j →
        save_file_exists env.fs (candidateName m.input_buffer k) = true) ∧
    ((model_handle_input env m CMD_RETURN).fs =
      model_save_named env.fs (generate_unique_filename env.fs m.input_buffer)
        { m with sounds := { m.sounds with play_select_sound := true } }) ∧
    generate_unique_filename [("Run(1).dat", SaveFile.corrupt)] "Run" =
      "Run(2).dat" := by
  obtain ⟨i0, hi0, hle, hf⟩ := hfree
  obtain ⟨j, hij, hres, hjf, hmin⟩ :=
    genUniqueAux_finds env.fs m.input_buffer (env.fs.length + 1) 1
      ⟨i0 - 1, by omega, by
        have : 1 + (i0 - 1) = i0 := by omega
        rw [this]; exact hf⟩
  refine ⟨⟨j, hij, ?_, hjf, hmin⟩, ?_, by decide⟩
  · unfold generate_unique_filename
    rw [hres]
    rfl
  · simp [model_handle_input, hst, hsel]

/-- Witness for C8 at a concrete input: directory containing exactly
`"Run(1).dat"`, base name `"Run"`. -/
theorem keep_both_never_overwrites_witness :
    (({ model_init with
        state := STATE_OVERWRITE_CONFIRM, menu_selection := 1,
        input_buffer := "Run" } : GameModel).state = STATE_OVERWRITE_CONFIRM ∧
     ({ model_init with
        state := STATE_OVERWRITE_CONFIRM, menu_selection := 1,
        input_buffer := "Run" } : GameModel).menu_selection ≠ 0 ∧
     save_file_exists [("Run(1).dat", SaveFile.corrupt)]
       (candidateName "Run" 2) = false) ∧
    ((model_handle_input ⟨[("Run(1).dat", SaveFile.corrupt)], none⟩
        { model_init with
          state := STATE_OVERWRITE_CONFIRM, menu_selection := 1,
          input_buffer := "Run" } CMD_RETURN).fs =
      model_save_named [("Run(1).dat", SaveFile.corrupt)]
        (generate_unique_filename [("Run(1).dat", SaveFile.corrupt)] "Run")
        { ({ model_init with
             state := STATE_OVERWRITE_CONFIRM, menu_selection := 1,
             input_buffer := "Run" } : GameModel) with
          sounds := { ({ model_init with
                         state := STATE_OVERWRITE_CONFIRM, menu_selection := 1,
                         input_buffer := "Run" } : GameModel).sounds with
                      play_select_sound := true } }) := by
  refine ⟨⟨rfl, by decide, by decide⟩, ?_⟩
  exact (keep_both_never_overwrites
    ⟨[("Run(1).dat", SaveFile.corrupt)], none⟩
    { model_init with
      state := STATE_OVERWRITE_CONFIRM, menu_selection := 1,
      input_buffer := "Run" }
    rfl (by decide) ⟨2, by decide, by decide, by decide⟩).2.1

-- ===== projection lemmas for the sections of the playing step =====

/-- `stepTimers` only touches the shoot/hit timers, the animation clock and
the beat sounds. -/
theorem stepTimers_proj (m : GameModel) (dt : ℚ) :
    (stepTimers m dt).state = m.state ∧
    (stepTimers m dt).shields = m.shields ∧
    (stepTimers m dt).enemies = m.enemies ∧
    (stepTimers m dt).bullets = m.bullets ∧
    (stepTimers m dt).ufo = m.ufo ∧
    (stepTimers m dt).lives = m.lives ∧
    (stepTimers m dt).level = m.level ∧
    (stepTimers m dt).player.x = m.player.x ∧
    (stepTimers m dt).player.dx = m.player.dx ∧
    (stepTimers m dt).player.active = m.player.active := by
  refine ⟨?_, ?_, ?_, ?_, ?_, ?_, ?_, ?_, ?_, ?_⟩ <;>
    (unfold stepTimers; dsimp only; split_ifs) <;> rfl

/-- The hit-invulnerability decrement of `stepTimers`. -/
theorem stepTimers_hit_timer (m : GameModel) (dt : ℚ) :
    (stepTimers m dt).hit_timer =
      (if m.hit_timer > 0 then m.hit_timer - dt else m.hit_timer) := by
  unfold stepTimers
  dsimp only
  split_ifs <;> rfl

/-- `stepPlayer` only touches the player's position. -/
theorem stepPlayer_proj (m : GameModel) (dt : ℚ) :
    (stepPlayer m dt).state = m.state ∧
    (stepPlayer m dt).shields = m.shields ∧
    (stepPlayer m dt).enemies = m.enemies ∧
    (stepPlayer m dt).bullets = m.bullets ∧
    (stepPlayer m dt).ufo = m.ufo ∧
    (stepPlayer m dt).lives = m.lives ∧
    (stepPlayer m dt).level = m.level ∧
    (stepPlayer m dt).hit_timer = m.hit_timer ∧
    (stepPlayer m dt).player.dx = m.player.dx ∧
    (stepPlayer m dt).player.active = m.player.active := by
  refine ⟨?_, ?_, ?_, ?_, ?_, ?_, ?_, ?_, ?_, ?_⟩ <;>
    (unfold stepPlayer; dsimp only; split_ifs) <;> rfl

/-- The player integration and clamping of `stepPlayer`, for an active
player. -/
theorem stepPlayer_x (m : GameModel) (dt : ℚ) (h : m.player.active = true) :
    (stepPlayer m dt).player.x =
      (if m.player.x + m.player.dx * dt < 0 then 0
       else if m.player.x + m.player.dx * dt > GAME_WIDTH - PLAYER_WIDTH then
         GAME_WIDTH - PLAYER_WIDTH
       else m.player.x + m.player.dx * dt) := by
  unfold stepPlayer GAME_WIDTH PLAYER_WIDTH
  simp only [h, if_true]
  split_ifs <;> first | rfl | linarith

/-- `stepUfo` only touches the ufo record and the ufo sound flag. -/
theorem stepUfo_proj (m : GameModel) (dt : ℚ) (rng : List ℕ) :
    (stepUfo m dt rng).1.state = m.state ∧
    (stepUfo m dt rng).1.shields = m.shields ∧
    (stepUfo m dt rng).1.enemies = m.enemies ∧
    (stepUfo m dt rng).1.bullets = m.bullets ∧
    (stepUfo m dt rng).1.lives = m.lives ∧
    (stepUfo m dt rng).1.level = m.level ∧
    (stepUfo m dt rng).1.hit_timer = m.hit_timer ∧
    (stepUfo m dt rng).1.player = m.player := by
  refine ⟨?_, ?_, ?_, ?_, ?_, ?_, ?_, ?_⟩ <;>
    (unfold stepUfo spawn_ufo; dsimp only; split_ifs) <;> rfl

/-- `init_enemies` only touches the enemy array, the group parameters and
the ufo per-level state. -/
theorem init_enemies_proj (m : GameModel) :
    (init_enemies m).state = m.state ∧
    (init_enemies m).shields = m.shields ∧
    (init_enemies m).bullets = m.bullets ∧
    (init_enemies m).lives = m.lives ∧
    (init_enemies m).level = m.level ∧
    (init_enemies m).hit_timer = m.hit_timer ∧
    (init_enemies m).player = m.player := by
  exact ⟨rfl, rfl, rfl, rfl, rfl, rfl, rfl⟩

/-- `stepEnemies` never touches the state, shields, bullets, lives,
hit-timer or player. -/
theorem stepEnemies_proj (m : GameModel) (dt : ℚ) :
    (stepEnemies m dt).1.state = m.state ∧
    (stepEnemies m dt).1.shields = m.shields ∧
    (stepEnemies m dt).1.bullets = m.bullets ∧
    (stepEnemies m dt).1.lives = m.lives ∧
    (stepEnemies m dt).1.hit_timer = m.hit_timer ∧
    (stepEnemies m dt).1.player = m.player := by
  refine ⟨?_, ?_, ?_, ?_, ?_, ?_⟩ <;>
    (unfold stepEnemies init_enemies; dsimp only; split_ifs) <;> rfl

/-- `fireLoop` only touches the bullet pool. -/
theorem fireLoop_proj (m : GameModel) :
    ∀ (k : ℕ) (rng : List ℕ),
      (fireLoop m rng k).state = m.state ∧
      (fireLoop m rng k).shields = m.shields ∧
      (fireLoop m rng k).enemies = m.enemies ∧
      (fireLoop m rng k).ufo = m.ufo ∧
      (fireLoop m rng k).lives = m.lives ∧
      (fireLoop m rng k).level = m.level ∧
      (fireLoop m rng k).hit_timer = m.hit_timer ∧
      (fireLoop m rng k).player = m.player := by
  intro k
  induction k with
  | zero => intro rng; exact ⟨rfl, rfl, rfl, rfl, rfl, rfl, rfl, rfl⟩
  | succ k ih =>
    intro rng
    unfold fireLoop
    cases h : m.enemies.get? (rng.headD 0 % MAX_ENEMIES) with
    | none =>
      simp only [h]
      exact ih rng.tail
    | some e =>
      simp only [h]
      split_ifs
      · exact ⟨rfl, rfl, rfl, rfl, rfl, rfl, rfl, rfl⟩
      · exact ih rng.tail

/-- `enemyFire` only touches the bullet pool. -/
theorem enemyFire_proj (m : GameModel) (rng : List ℕ) :
    (enemyFire m rng).state = m.state ∧
    (enemyFire m rng).shields = m.shields ∧
    (enemyFire m rng).enemies = m.enemies ∧
    (enemyFire m rng).ufo = m.ufo ∧
    (enemyFire m rng).lives = m.lives ∧
    (enemyFire m rng).level = m.level ∧
    (enemyFire m rng).hit_timer = m.hit_timer ∧
    (enemyFire m rng).player = m.player := by
  unfold enemyFire
  split_ifs
  · exact fireLoop_proj m 10 rng.tail
  · exact ⟨rfl, rfl, rfl, rfl, rfl, rfl, rfl, rfl⟩

/-- A bullet slot update never touches the player entity or the level. -/
theorem stepBullet_proj (dt : ℚ) (m : GameModel) (b : Entity) :
    (stepBullet dt m b).1.player = m.player ∧
    (stepBullet dt m b).1.level = m.level := by
  refine ⟨?_, ?_⟩ <;> (unfold stepBullet; dsimp only; repeat' split) <;> rfl

/-- While the hit-invulnerability timer is positive, a bullet slot update
keeps the hit timer, never decreases lives, and keeps the flow-state. -/
theorem stepBullet_invuln (dt : ℚ) (m : GameModel) (b : Entity)
    (h : 0 < m.hit_timer) :
    (stepBullet dt m b).1.hit_timer = m.hit_timer ∧
    m.lives ≤ (stepBullet dt m b).1.lives ∧
    (stepBullet dt m b).1.state = m.state := by
  have hd : decide (m.hit_timer ≤ 0) = false := decide_eq_false (not_le.mpr h)
  unfold stepBullet
  simp only [hd, Bool.and_false, Bool.false_and, Bool.false_eq_true, if_false]
  repeat' split
  all_goals exact ⟨rfl, by dsimp only; omega, rfl⟩

-- ===== shield relations =====

theorem shieldStepOk_refl (sh : Shield) : shieldStepOk sh sh :=
  ⟨le_refl _, fun hv => hv⟩

theorem shieldsRel_refl : ∀ l, shieldsRel l l
  | [] => trivial
  | sh :: rest => ⟨shieldStepOk_refl sh, shieldsRel_refl rest⟩

theorem shieldsRel_trans : ∀ a b c, shieldsRel a b → shieldsRel b c →
    shieldsRel a c
  | [], [], [], _, _ => trivial
  | _ :: _, _ :: _, _ :: _, ⟨h1, t1⟩, ⟨h2, t2⟩ =>
    ⟨⟨le_trans h1.1 h2.1, fun hv => h1.2 (h2.2 hv)⟩, shieldsRel_trans _ _ _ t1 t2⟩

/-- A hit shield satisfies `shieldStepOk` against its pre-impact value. -/
theorem shieldHit_stepOk (b : Entity) (sh : Shield) (h : shieldHit b sh = true) :
    shieldStepOk
      { sh with health := sh.health - 1,
                active := if sh.health - 1 ≤ 0 then false else sh.active } sh := by
  have hact : sh.active = true := by
    unfold shieldHit at h
    repeat' rw [Bool.and_eq_true] at h
    exact h.1.1.1.1
  constructor
  · show sh.health - 1 ≤ sh.health
    omega
  · rintro ⟨h0, h10, hpos⟩
    have hp := hpos hact
    unfold SHIELD_MAX_HEALTH at h10
    unfold ShieldInv SHIELD_MAX_HEALTH
    refine ⟨?_, ?_, ?_⟩
    · show (0 : ℤ) ≤ sh.health - 1
      omega
    · show sh.health - 1 ≤ 10
      omega
    · show (if sh.health - 1 ≤ 0 then false else sh.active) = true →
        (0 : ℤ) < sh.health - 1
      intro ha
      split_ifs at ha with hz
      omega

/-- The shield loop of the bullet phase satisfies `shieldsRel`. -/
theorem hitShields_rel (b : Entity) : ∀ (l l' : List Shield),
    hitShields b l = some l' → shieldsRel l' l := by
  intro l
  induction l with
  | nil => intro l' h; exact absurd h (by simp [hitShields])
  | cons sh rest ih =>
    intro l' h
    unfold hitShields at h
    split_ifs at h with hhit
    · obtain rfl := (Option.some_inj.mp h).symm
      exact ⟨shieldHit_stepOk b sh hhit, shieldsRel_refl rest⟩
    · rcases h2 : hitShields b rest with _ | l2
      · rw [h2] at h; exact absurd h (by simp)
      · rw [h2] at h
        obtain rfl := (Option.some_inj.mp h).symm
        exact ⟨shieldStepOk_refl sh, ih l2 h2⟩

/-- One bullet slot update relates the shields by `shieldsRel`. -/
theorem stepBullet_shields (dt : ℚ) (m : GameModel) (b : Entity) :
    shieldsRel (stepBullet dt m b).1.shields m.shields := by
  unfold stepBullet
  dsimp only
  repeat' split
  all_goals first
    | exact shieldsRel_refl _
    | (rename_i heq; exact hitShields_rel _ _ _ heq)

/-- The bullet loop never touches the player or the level, and relates the
shields by `shieldsRel`. -/
theorem bulletsFold_proj (dt : ℚ) : ∀ (bs : List Entity) (m : GameModel),
    (bulletsFold dt m bs).1.player = m.player ∧
    (bulletsFold dt m bs).1.level = m.level ∧
    shieldsRel (bulletsFold dt m bs).1.shields m.shields := by
  intro bs
  induction bs with
  | nil => intro m; exact ⟨rfl, rfl, shieldsRel_refl _⟩
  | cons b rest ih =>
    intro m
    unfold bulletsFold
    dsimp only
    obtain ⟨hp, hl, hs⟩ := ih (stepBullet dt m b).1
    obtain ⟨hp2, hl2⟩ := stepBullet_proj dt m b
    refine ⟨by rw [hp, hp2], by rw [hl, hl2], ?_⟩
    exact shieldsRel_trans _ _ _ hs (stepBullet_shields dt m b)

/-- While the hit-invulnerability timer is positive, the whole bullet loop
keeps the hit timer, never decreases lives, and keeps the flow-state. -/
theorem bulletsFold_invuln (dt : ℚ) : ∀ (bs : List Entity) (m : GameModel),
    0 < m.hit_timer →
    (bulletsFold dt m bs).1.hit_timer = m.hit_timer ∧
    m.lives ≤ (bulletsFold dt m bs).1.lives ∧
    (bulletsFold dt m bs).1.state = m.state := by
  intro bs
  induction bs with
  | nil => intro m h; exact ⟨rfl, le_refl _, rfl⟩
  | cons b rest ih =>
    intro m h
    unfold bulletsFold
    dsimp only
    obtain ⟨ht, hl, hs⟩ := stepBullet_invuln dt m b h
    obtain ⟨ht2, hl2, hs2⟩ := ih (stepBullet dt m b).1 (by rw [ht]; exact h)
    exact ⟨by rw [ht2, ht], le_trans hl hl2, by rw [hs2, hs]⟩

/-- The whole playing step relates the shields by `shieldsRel`. -/
theorem playingStep_shields (m : GameModel) (dt : ℚ) (rng : List ℕ) :
    shieldsRel (playingStep m dt rng).shields m.shields := by
  unfold playingStep
  have e1 : (stepTimers m dt).shields = m.shields := (stepTimers_proj m dt).2.1
  have e2 : (stepPlayer (stepTimers m dt) dt).shields = m.shields := by
    rw [(stepPlayer_proj (stepTimers m dt) dt).2.1, e1]
  have e3 : (stepUfo (stepPlayer (stepTimers m dt) dt) dt rng).1.shields =
      m.shields := by
    rw [(stepUfo_proj (stepPlayer (stepTimers m dt) dt) dt rng).2.1, e2]
  have e4 : (stepEnemies (stepUfo (stepPlayer (stepTimers m dt) dt) dt rng).1
      dt).1.shields = m.shields := by
    rw [(stepEnemies_proj
      (stepUfo (stepPlayer (stepTimers m dt) dt) dt rng).1 dt).2.1, e3]
  dsimp only
  split
  · rw [e4]; exact shieldsRel_refl _
  · unfold stepBullets
    dsimp only
    have e5 : (enemyFire
        (stepEnemies (stepUfo (stepPlayer (stepTimers m dt) dt) dt rng).1 dt).1
        (stepUfo (stepPlayer (stepTimers m dt) dt) dt rng).2).shields =
        m.shields := by
      rw [(enemyFire_proj _ _).2.1, e4]
    have h6 := (bulletsFold_proj dt
      (enemyFire
        (stepEnemies (stepUfo (stepPlayer (stepTimers m dt) dt) dt rng).1 dt).1
        (stepUfo (stepPlayer (stepTimers m dt) dt) dt rng).2).bullets
      (enemyFire
        (stepEnemies (stepUfo (stepPlayer (stepTimers m dt) dt) dt rng).1 dt).1
        (stepUfo (stepPlayer (stepTimers m dt) dt) dt rng).2)).2.2
    rw [e5] at h6
    exact h6

/-- `model_update` relates the shields by `shieldsRel` in every state. -/
theorem model_update_shields (m : GameModel) (dt : ℚ) (rng : List ℕ) :
    shieldsRel (model_update m dt rng).1.shields m.shields := by
  unfold model_update
  split_ifs <;> first
    | exact shieldsRel_refl _
    | exact playingStep_shields m dt rng

theorem shieldsRel_le : ∀ a b, shieldsRel a b → shieldsLe a b
  | [], [], _ => trivial
  | _ :: _, _ :: _, ⟨h, t⟩ => ⟨h.1, shieldsRel_le _ _ t⟩

theorem shieldsRel_inv : ∀ a b, shieldsRel a b →
    (∀ sh ∈ b, ShieldInv sh) → ∀ sh ∈ a, ShieldInv sh
  | [], [], _, _ => by intro sh hsh; exact absurd hsh (by simp)
  | x :: xs, y :: ys, ⟨h, t⟩, hb => by
    intro sh hsh
    rcases List.mem_cons.mp hsh with rfl | hsh2
    · exact h.2 (hb y (by simp))
    · exact shieldsRel_inv xs ys t (fun s hs => hb s (by simp [hs])) sh hsh2

/-- The shield loop hits exactly the first active overlapping shield and
decrements its health by exactly 1, leaving every other slot unchanged. -/
theorem hitShields_decrement (b : Entity) : ∀ (l l' : List Shield),
    hitShields b l = some l' →
    ∃ pre sh post, l = pre ++ sh :: post ∧ shieldHit b sh = true ∧
      (∀ s ∈ pre, shieldHit b s = false) ∧
      l' = pre ++ ({ sh with
                     health := sh.health - 1,
                     active := if sh.health - 1 ≤ 0 then false
                               else sh.active } :: post) := by
  intro l
  induction l with
  | nil => intro l' h; exact absurd h (by simp [hitShields])
  | cons sh rest ih =>
    intro l' h
    unfold hitShields at h
    split_ifs at h with hhit
    · obtain rfl := (Option.some_inj.mp h).symm
      exact ⟨[], sh, rest, by simp, hhit, by simp, by simp⟩
    · rcases h2 : hitShields b rest with _ | l2
      · rw [h2] at h; exact absurd h (by simp)
      · rw [h2] at h
        obtain rfl := (Option.some_inj.mp h).symm
        obtain ⟨pre, sh2, post, hl, hh, hpre, hl2⟩ := ih l2 h2
        refine ⟨sh :: pre, sh2, post, by simp [hl], hh, ?_, by simp [hl2]⟩
        intro s hs
        rcases List.mem_cons.mp hs with rfl | hs2
        · exact Bool.not_eq_true _ |>.mp hhit
        · exact hpre s hs2

/-- The shield loop ignores the bullet's owner: changing the bullet type
changes nothing. -/
theorem hitShields_type_blind (b : Entity) (ty : EntityType) :
    ∀ l : List Shield, hitShields { b with type := ty } l = hitShields b l := by
  intro l
  induction l with
  | nil => rfl
  | cons sh rest ih =>
    show (if shieldHit { b with type := ty } sh then _ else _) = _
    rw [show shieldHit { b with type := ty } sh = shieldHit b sh from rfl, ih]
    rfl

/-- `init_shields` gives every barrier full health, active, and the
invariant. -/
theorem init_shields_establishes (m : GameModel) :
    ∀ sh ∈ (init_shields m).shields,
      ShieldInv sh ∧ sh.health = SHIELD_MAX_HEALTH ∧ sh.active = true := by
  intro sh hsh
  unfold init_shields at hsh
  simp only [List.mem_map, List.mem_range] at hsh
  obtain ⟨i, _, rfl⟩ := hsh
  refine ⟨⟨?_, ?_, fun _ => ?_⟩, rfl, rfl⟩ <;>
    (unfold SHIELD_MAX_HEALTH; dsimp only; omega)

/-- C3: across every simulation step, each barrier's health is monotonically
non-increasing; the invariant "health in [0,10] and active implies
health > 0" is preserved by every step and established by `init_shields`
(which also sets health to exactly `SHIELD_MAX_HEALTH = 10`); a bullet
impact decrements the hit barrier's health by exactly 1 (deactivating it at
health ≤ 0) and leaves all other barriers unchanged, regardless of the
bullet's owner type. -/
theorem barrier_invariants :
    (∀ (m : GameModel) (dt : ℚ) (rng : List ℕ),
      shieldsLe (model_update m dt rng).1.shields m.shields) ∧
    (∀ (m : GameModel) (dt : ℚ) (rng : List ℕ),
      (∀ sh ∈ m.shields, ShieldInv sh) →
      ∀ sh ∈ (model_update m dt rng).1.shields, ShieldInv sh) ∧
    (∀ m : GameModel, ∀ sh ∈ (init_shields m).shields,
      ShieldInv sh ∧ sh.health = SHIELD_MAX_HEALTH ∧ sh.active = true) ∧
    (∀ (b : Entity) (l l' : List Shield), hitShields b l = some l' →
      ∃ pre sh post, l = pre ++ sh :: post ∧ shieldHit b sh = true ∧
        (∀ s ∈ pre, shieldHit b s = false) ∧
        l' = pre ++ ({ sh with
                       health := sh.health - 1,
                       active := if sh.health - 1 ≤ 0 then false
                                 else sh.active } :: post)) ∧
    (∀ (b : Entity) (ty : EntityType) (l : List Shield),
      hitShields { b with type := ty } l = hitShields b l) := by
  refine ⟨?_, ?_, init_shields_establishes, hitShields_decrement,
          fun b ty l => hitShields_type_blind b ty l⟩
  · intro m dt rng
    exact shieldsRel_le _ _ (model_update_shields m dt rng)
  · intro m dt rng hinv
    exact shieldsRel_inv _ _ (model_update_shields m dt rng) hinv

/-- Witness for C3 at concrete inputs: the invariant-preservation part on a
one-step update of the initial playing model, and the exact-decrement part
on a bullet overlapping the first barrier. -/
theorem barrier_invariants_witness :
    ((∀ sh ∈ mPlay.shields, ShieldInv sh) ∧
     (∀ sh ∈ (model_update mPlay (1/60) [98, 98]).1.shields, ShieldInv sh)) ∧
    (hitShields { zeroEntity with
                  active := true, x := 17, y := 39, width := 1, height := 1 } mPlay.shields =
       some ({ (mPlay.shields.getD 0 zeroShield) with health := 9 } ::
             mPlay.shields.drop 1) ∧
     ∃ pre sh post,
       mPlay.shields = pre ++ sh :: post ∧
       shieldHit { zeroEntity with
                   active := true, x := 17, y := 39, width := 1, height := 1 } sh = true ∧
       (∀ s ∈ pre, shieldHit { zeroEntity with
                               active := true, x := 17, y := 39, width := 1,
                               height := 1 } s = false) ∧
       ({ (mPlay.shields.getD 0 zeroShield) with health := 9 } ::
          mPlay.shields.drop 1) =
         pre ++ ({ sh with
                   health := sh.health - 1,
                   active := if sh.health - 1 ≤ 0 then false
                             else sh.active } :: post)) := by
  have hinv : ∀ sh ∈ mPlay.shields, ShieldInv sh := by
    with_unfolding_all decide
  have hhit : hitShields { zeroEntity with
      active := true, x := 17, y := 39, width := 1, height := 1 } mPlay.shields =
      some ({ (mPlay.shields.getD 0 zeroShield) with health := 9 } ::
            mPlay.shields.drop 1) := by
    with_unfolding_all decide
  exact ⟨⟨hinv, barrier_invariants.2.1 mPlay (1/60) [98, 98] hinv⟩,
         ⟨hhit, barrier_invariants.2.2.2.1 _ _ _ hhit⟩⟩

/-- An inactive enemy is untouched by the explosion update. -/
theorem stepExplode_inactive (dt : ℚ) (e : Entity) (h : e.active = false) :
    stepExplode dt e = e := by
  unfold stepExplode
  rw [h]
  rfl

/-- Level-clear branch of section E. -/
theorem stepEnemies_clear (m : GameModel) (dt : ℚ)
    (h : countActive (m.enemies.map (stepExplode dt)) = 0 ∧
         m.ufo.active = false) :
    stepEnemies m dt =
      (init_enemies { m with
                      enemies := m.enemies.map (stepExplode dt),
                      level := m.level + 1,
                      sounds := { m.sounds with play_level_up := true } },
       true) := by
  unfold stepEnemies
  rw [if_pos h]

/-- Without a level clear, section E does not transition and keeps the
level. -/
theorem stepEnemies_noclear (m : GameModel) (dt : ℚ)
    (h : ¬(countActive (m.enemies.map (stepExplode dt)) = 0 ∧
           m.ufo.active = false)) :
    (stepEnemies m dt).2 = false ∧ (stepEnemies m dt).1.level = m.level := by
  unfold stepEnemies
  rw [if_neg h]
  split_ifs <;> exact ⟨rfl, rfl⟩

theorem stepBullets_level (m : GameModel) (dt : ℚ) :
    (stepBullets m dt).level = m.level := by
  unfold stepBullets
  dsimp only
  exact (bulletsFold_proj dt m.bullets m).2.1

theorem stepBullets_player (m : GameModel) (dt : ℚ) :
    (stepBullets m dt).player = m.player := by
  unfold stepBullets
  dsimp only
  exact (bulletsFold_proj dt m.bullets m).1

/-- In `STATE_PLAYING`, `model_update` runs the playing body. -/
theorem model_update_playing (m : GameModel) (dt : ℚ) (rng : List ℕ)
    (hst : m.state = STATE_PLAYING) :
    (model_update m dt rng).1 = playingStep m dt rng := by
  simp [model_update, hst]

/-- Level and enemy effect of one playing step, by level-clear case. -/
theorem playingStep_level (m : GameModel) (dt : ℚ) (rng : List ℕ) :
    ((countActive (m.enemies.map (stepExplode dt)) = 0 ∧
      (stepUfo (stepPlayer (stepTimers m dt) dt) dt rng).1.ufo.active = false) →
      (playingStep m dt rng).level = m.level + 1 ∧
      (playingStep m dt rng).enemies =
        (List.range 55).map formationEnemy ++
          (m.enemies.map (stepExplode dt)).drop 55) ∧
    (¬(countActive (m.enemies.map (stepExplode dt)) = 0 ∧
       (stepUfo (stepPlayer (stepTimers m dt) dt) dt rng).1.ufo.active = false) →
      (playingStep m dt rng).level = m.level) := by
  have e_en : (stepUfo (stepPlayer (stepTimers m dt) dt) dt rng).1.enemies =
      m.enemies := by
    rw [(stepUfo_proj (stepPlayer (stepTimers m dt) dt) dt rng).2.2.1,
        (stepPlayer_proj (stepTimers m dt) dt).2.2.1,
        (stepTimers_proj m dt).2.2.1]
  have e_lv : (stepUfo (stepPlayer (stepTimers m dt) dt) dt rng).1.level =
      m.level := by
    rw [(stepUfo_proj (stepPlayer (stepTimers m dt) dt) dt rng).2.2.2.2.2.1,
        (stepPlayer_proj (stepTimers m dt) dt).2.2.2.2.2.2.1,
        (stepTimers_proj m dt).2.2.2.2.2.2.1]
  constructor
  · intro h
    have h' : countActive
        ((stepUfo (stepPlayer (stepTimers m dt) dt) dt rng).1.enemies.map
          (stepExplode dt)) = 0 ∧
        (stepUfo (stepPlayer (stepTimers m dt) dt) dt rng).1.ufo.active =
          false := by
      rw [e_en]
      exact h
    unfold playingStep
    dsimp only
    rw [stepEnemies_clear _ dt h']
    dsimp only
    rw [if_pos rfl]
    constructor
    · show (init_enemies _).level = m.level + 1
      unfold init_enemies
      dsimp only
      rw [e_lv]
    · show (init_enemies _).enemies = _
      unfold init_enemies
      dsimp only
      rw [e_en]
  · intro h
    have h' : ¬(countActive
        ((stepUfo (stepPlayer (stepTimers m dt) dt) dt rng).1.enemies.map
          (stepExplode dt)) = 0 ∧
        (stepUfo (stepPlayer (stepTimers m dt) dt) dt rng).1.ufo.active =
          false) := by
      rw [e_en]
      exact h
    obtain ⟨h2, h3⟩ := stepEnemies_noclear _ dt h'
    unfold playingStep
    dsimp only
    rw [h2]
    simp only [Bool.false_eq_true, if_false]
    rw [stepBullets_level, (enemyFire_proj _ _).2.2.2.2.2.1, h3, e_lv]

/-- C4: in a `STATE_PLAYING` step, the level increments (by exactly 1) if
and only if the count of active non-exploding enemies — taken after this
step's explosion updates — is 0 and the bonus flyer is inactive at that
point of the same step; on transition, the enemy formation is repopulated:
slots 0..54 become the 5×11 formation (55 active enemies, slot `i` in row
`i / 11`, column `i % 11`), every enemy in row 0 has type
`ENTITY_ENEMY_TYPE_3`, the highest-scoring type; without a transition the
level is unchanged. -/
theorem level_transition_iff (m : GameModel) (dt : ℚ) (rng : List ℕ)
    (hst : m.state = STATE_PLAYING)
    (htail : ∀ e ∈ m.enemies.drop 55, e.active = false) :
    ((model_update m dt rng).1.level = m.level + 1 ↔
      (countActive (m.enemies.map (stepExplode dt)) = 0 ∧
       (stepUfo (stepPlayer (stepTimers m dt) dt) dt rng).1.ufo.active =
         false)) ∧
    ((countActive (m.enemies.map (stepExplode dt)) = 0 ∧
      (stepUfo (stepPlayer (stepTimers m dt) dt) dt rng).1.ufo.active =
        false) →
      ((model_update m dt rng).1.enemies =
         (List.range 55).map formationEnemy ++
           (m.enemies.map (stepExplode dt)).drop 55 ∧
       ((model_update m dt rng).1.enemies.filter
          (fun e => e.active)).length = 55 ∧
       (∀ i, i < 55 → (model_update m dt rng).1.enemies.getD i zeroEntity =
          formationEnemy i) ∧
       (∀ i, i < 11 →
          ((model_update m dt rng).1.enemies.getD i zeroEntity).type =
            ENTITY_ENEMY_TYPE_3))) ∧
    (¬(countActive (m.enemies.map (stepExplode dt)) = 0 ∧
       (stepUfo (stepPlayer (stepTimers m dt) dt) dt rng).1.ufo.active =
         false) →
      (model_update m dt rng).1.level = m.level) ∧
    (pointsFor ENTITY_ENEMY_TYPE_3 = 30 ∧
     ∀ t : EntityType, pointsFor t ≤ pointsFor ENTITY_ENEMY_TYPE_3) := by
  rw [model_update_playing m dt rng hst]
  obtain ⟨hclear, hnoclear⟩ := playingStep_level m dt rng
  refine ⟨?_, ?_, fun h => (hnoclear h), ⟨rfl, fun t => by cases t <;> decide⟩⟩
  · constructor
    · intro hlv
      by_contra hnc
      have := hnoclear hnc
      omega
    · intro hc
      exact (hclear hc).1
  · intro hc
    have hen := (hclear hc).2
    have htail2 : ∀ e ∈ (m.enemies.map (stepExplode dt)).drop 55,
        e.active = false := by
      intro e he
      rw [← List.map_drop] at he
      obtain ⟨x, hx, rfl⟩ := List.mem_map.mp he
      rw [stepExplode_inactive dt x (htail x hx)]
      exact htail x hx
    have hformation_active : ∀ e ∈ (List.range 55).map formationEnemy,
        e.active = true := by
      intro e he
      obtain ⟨i, _, rfl⟩ := List.mem_map.mp he
      rfl
    refine ⟨hen, ?_, ?_, ?_⟩
    · rw [hen, List.filter_append]
      have hA : ((List.range 55).map formationEnemy).filter
          (fun e => e.active) = (List.range 55).map formationEnemy :=
        List.filter_eq_self.mpr (fun a ha => by rw [hformation_active a ha])
      have hB : ((m.enemies.map (stepExplode dt)).drop 55).filter
          (fun e => e.active) = [] :=
        List.filter_eq_nil_iff.mpr
          (fun a ha => by rw [htail2 a ha]; exact Bool.false_ne_true)
      rw [hA, hB]
      simp
    · intro i hi
      rw [hen, List.getD_append _ _ _ _ (by simpa using hi)]
      have : i < ((List.range 55).map formationEnemy).length := by simpa using hi
      rw [List.getD_eq_getElem _ _ this]
      simp
    · intro i hi
      rw [hen, List.getD_append _ _ _ _ (by simpa using (by omega : i < 55))]
      have : i < ((List.range 55).map formationEnemy).length := by
        simpa using (by omega : i < 55)
      rw [List.getD_eq_getElem _ _ this]
      simp only [List.getElem_map, List.getElem_range]
      unfold formationEnemy
      have : i / 11 = 0 := Nat.div_eq_of_lt hi
      simp [this]

/-- Witness for C4 at a concrete input: a playing model with no live
enemies and no flyer — the step increments the level and repopulates 55
active enemies. -/
theorem level_transition_iff_witness :
    (mClear.state = STATE_PLAYING ∧
     (∀ e ∈ mClear.enemies.drop 55, e.active = false) ∧
     (countActive (mClear.enemies.map (stepExplode (1/60))) = 0 ∧
      (stepUfo (stepPlayer (stepTimers mClear (1/60)) (1/60)) (1/60)
        [98, 98]).1.ufo.active = false)) ∧
    ((model_update mClear (1/60) [98, 98]).1.level = mClear.level + 1 ∧
     ((model_update mClear (1/60) [98, 98]).1.enemies.filter
        (fun e => e.active)).length = 55) := by
  have h1 : mClear.state = STATE_PLAYING := rfl
  have h2 : ∀ e ∈ mClear.enemies.drop 55, e.active = false := by decide
  have h3 : countActive (mClear.enemies.map (stepExplode (1/60))) = 0 ∧
      (stepUfo (stepPlayer (stepTimers mClear (1/60)) (1/60)) (1/60)
        [98, 98]).1.ufo.active = false := by
    with_unfolding_all decide
  exact ⟨⟨h1, h2, h3⟩,
         (level_transition_iff mClear (1/60) [98, 98] h1 h2).1.mpr h3,
         ((level_transition_iff mClear (1/60) [98, 98] h1 h2).2.1 h3).2.1⟩

/-- The playing step moves the active player by `dx·dt` and clamps the
result to `[0, GAME_WIDTH - PLAYER_WIDTH]`; no later section of the step
touches the player. -/
theorem playingStep_player_x (m : GameModel) (dt : ℚ) (rng : List ℕ)
    (hact : m.player.active = true) :
    (playingStep m dt rng).player.x =
      (if m.player.x + m.player.dx * dt < 0 then 0
       else if m.player.x + m.player.dx * dt > GAME_WIDTH - PLAYER_WIDTH then
         GAME_WIDTH - PLAYER_WIDTH
       else m.player.x + m.player.dx * dt) := by
  have h1 := stepTimers_proj m dt
  have hact1 : (stepTimers m dt).player.active = true := by
    rw [h1.2.2.2.2.2.2.2.2.2]
    exact hact
  have hx2 : (stepPlayer (stepTimers m dt) dt).player.x =
      (if m.player.x + m.player.dx * dt < 0 then 0
       else if m.player.x + m.player.dx * dt > GAME_WIDTH - PLAYER_WIDTH then
         GAME_WIDTH - PLAYER_WIDTH
       else m.player.x + m.player.dx * dt) := by
    rw [stepPlayer_x (stepTimers m dt) dt hact1,
        h1.2.2.2.2.2.2.2.1, h1.2.2.2.2.2.2.2.2.1]
  have hp3 := (stepUfo_proj (stepPlayer (stepTimers m dt) dt) dt rng).2.2.2.2.2.2.2
  have hp4 := (stepEnemies_proj
    (stepUfo (stepPlayer (stepTimers m dt) dt) dt rng).1 dt).2.2.2.2.2
  unfold playingStep
  dsimp only
  split
  · rw [hp4, hp3, hx2]
  · rw [stepBullets_player, (enemyFire_proj _ _).2.2.2.2.2.2.2, hp4, hp3, hx2]

/-- C7: during every `STATE_PLAYING` step the player's horizontal position,
after integration by `dx·dt`, is clamped to
`[0, GAME_WIDTH - PLAYER_WIDTH]`; in particular, along any run of `1/60`
steps that stays in the playing state with the player active and commanded
right at speed 40 from `x = 47`, the position after `k` steps is exactly
`min 95 (47 + (2/3)·k)` — so it reaches exactly 95 (for `k ≥ 72`, hence
after 2 simulated seconds) and never exceeds 95 at any step. -/
theorem player_position_clamped :
    (∀ (m : GameModel) (dt : ℚ) (rng : List ℕ),
      m.state = STATE_PLAYING → m.player.active = true →
      ((model_update m dt rng).1.player.x =
        (if m.player.x + m.player.dx * dt < 0 then 0
         else if m.player.x + m.player.dx * dt > GAME_WIDTH - PLAYER_WIDTH then
           GAME_WIDTH - PLAYER_WIDTH
         else m.player.x + m.player.dx * dt) ∧
       0 ≤ (model_update m dt rng).1.player.x ∧
       (model_update m dt rng).1.player.x ≤ GAME_WIDTH - PLAYER_WIDTH)) ∧
    (∀ (n : ℕ) (traj : ℕ → GameModel) (rngs : ℕ → List ℕ),
      (traj 0).player.x = 47 →
      (∀ k, k < n → traj (k + 1) = (model_update (traj k) (1/60) (rngs k)).1) →
      (∀ k, k < n → (traj k).state = STATE_PLAYING ∧
        (traj k).player.active = true ∧ (traj k).player.dx = 40) →
      ∀ k, k ≤ n → (traj k).player.x = min 95 (47 + (2/3) * (k : ℚ)) ∧
        (traj k).player.x ≤ 95) := by
  have hgw : GAME_WIDTH - PLAYER_WIDTH = (95 : ℚ) := by
    norm_num [GAME_WIDTH, PLAYER_WIDTH]
  have part1 : ∀ (m : GameModel) (dt : ℚ) (rng : List ℕ),
      m.state = STATE_PLAYING → m.player.active = true →
      ((model_update m dt rng).1.player.x =
        (if m.player.x + m.player.dx * dt < 0 then 0
         else if m.player.x + m.player.dx * dt > GAME_WIDTH - PLAYER_WIDTH then
           GAME_WIDTH - PLAYER_WIDTH
         else m.player.x + m.player.dx * dt) ∧
       0 ≤ (model_update m dt rng).1.player.x ∧
       (model_update m dt rng).1.player.x ≤ GAME_WIDTH - PLAYER_WIDTH) := by
    intro m dt rng hst hact
    rw [model_update_playing m dt rng hst, playingStep_player_x m dt rng hact]
    refine ⟨rfl, ?_, ?_⟩ <;> rw [hgw] <;> split_ifs <;> linarith
  refine ⟨part1, ?_⟩
  intro n traj rngs h0 hstep hplay k
  induction k with
  | zero =>
    intro _
    rw [h0]
    norm_num
  | succ k ih =>
    intro hk1
    have hkn : k < n := by omega
    obtain ⟨hxk, _⟩ := ih (by omega)
    obtain ⟨hs, ha, hdx⟩ := hplay k hkn
    obtain ⟨hformula, _, _⟩ := part1 (traj k) (1/60) (rngs k) hs ha
    rw [hgw] at hformula
    rw [hstep k hkn, hformula, hxk, hdx]
    have hknn : (0 : ℚ) ≤ (k : ℚ) := Nat.cast_nonneg k
    have hcast : ((k + 1 : ℕ) : ℚ) = (k : ℚ) + 1 := by push_cast; ring
    rcases le_or_lt (47 + (2/3) * (k : ℚ)) 95 with hA | hB
    · rw [min_eq_right hA]
      rw [if_neg (by linarith)]
      rcases le_or_lt (47 + (2/3) * (k : ℚ) + 40 * (1/60)) 95 with hA2 | hA3
      · rw [if_neg (by linarith)]
        constructor
        · rw [hcast]
          rw [min_eq_right (by linarith)]
          ring
        · linarith
      · rw [if_pos (by linarith)]
        constructor
        · rw [hcast]
          rw [min_eq_left (by linarith)]
        · linarith
    · rw [min_eq_left (by linarith)]
      rw [if_neg (by linarith), if_pos (by linarith)]
      constructor
      · rw [hcast]
        rw [min_eq_left (by linarith)]
      · linarith

/-- Witness for C7 at concrete inputs: one step of `mRight` (player at 47
moving right at 40) through both parts of the theorem. -/
theorem player_position_clamped_witness :
    ((mRight.state = STATE_PLAYING ∧ mRight.player.active = true) ∧
     (model_update mRight (1/60) []).1.player.x =
       (if mRight.player.x + mRight.player.dx * (1/60) < 0 then 0
        else if mRight.player.x + mRight.player.dx * (1/60) >
            GAME_WIDTH - PLAYER_WIDTH then GAME_WIDTH - PLAYER_WIDTH
        else mRight.player.x + mRight.player.dx * (1/60))) ∧
    (((fun k => if k = 0 then mRight else (model_update mRight (1/60) []).1) 0).player.x = 47 ∧
     (∀ k, k < 1 →
       (fun k => if k = 0 then mRight else (model_update mRight (1/60) []).1) (k + 1) =
         (model_update
           ((fun k => if k = 0 then mRight else (model_update mRight (1/60) []).1) k)
           (1/60) ((fun _ => ([] : List ℕ)) k)).1) ∧
     (∀ k, k < 1 →
       ((fun k => if k = 0 then mRight else (model_update mRight (1/60) []).1) k).state =
           STATE_PLAYING ∧
       ((fun k => if k = 0 then mRight else (model_update mRight (1/60) []).1) k).player.active =
           true ∧
       ((fun k => if k = 0 then mRight else (model_update mRight (1/60) []).1) k).player.dx =
           40)) ∧
    (∀ k : ℕ, k ≤ 1 →
      ((fun k => if k = 0 then mRight else (model_update mRight (1/60) []).1) k).player.x =
          min 95 (47 + (2/3) * (k : ℚ)) ∧
      ((fun k => if k = 0 then mRight else (model_update mRight (1/60) []).1) k).player.x ≤
          95) := by
  have hs : mRight.state = STATE_PLAYING := rfl
  have ha : mRight.player.active = true := rfl
  have h0 : ((fun k => if k = 0 then mRight
      else (model_update mRight (1/60) []).1) 0).player.x = 47 := by
    with_unfolding_all decide
  have hstep : ∀ k, k < 1 →
      (fun k => if k = 0 then mRight else (model_update mRight (1/60) []).1) (k + 1) =
        (model_update
          ((fun k => if k = 0 then mRight else (model_update mRight (1/60) []).1) k)
          (1/60) ((fun _ => ([] : List ℕ)) k)).1 := by
    intro k hk
    have hk0 : k = 0 := by omega
    subst hk0
    rfl
  have hplay : ∀ k, k < 1 →
      ((fun k => if k = 0 then mRight else (model_update mRight (1/60) []).1) k).state =
          STATE_PLAYING ∧
      ((fun k => if k = 0 then mRight else (model_update mRight (1/60) []).1) k).player.active =
          true ∧
      ((fun k => if k = 0 then mRight else (model_update mRight (1/60) []).1) k).player.dx =
          40 := by
    intro k hk
    have hk0 : k = 0 := by omega
    subst hk0
    exact ⟨rfl, rfl, by with_unfolding_all decide⟩
  refine ⟨⟨⟨hs, ha⟩, (player_position_clamped.1 mRight (1/60) [] hs ha).1⟩,
         ⟨h0, hstep, hplay⟩, ?_⟩
  intro k hk
  exact player_position_clamped.2 1
    (fun k => if k = 0 then mRight else (model_update mRight (1/60) []).1)
    (fun _ => ([] : List ℕ)) h0 hstep hplay k hk

theorem moveBullet_active (dt : ℚ) (b : Entity) :
    (moveBullet dt b).active = b.active := by
  unfold moveBullet
  dsimp only
  split <;> rfl

theorem moveBullet_y (dt : ℚ) (b : Entity) :
    (moveBullet dt b).y = b.y + b.dy * dt := by
  unfold moveBullet
  dsimp only
  split <;> rfl

theorem moveBullet_type (dt : ℚ) (b : Entity) :
    (moveBullet dt b).type = b.type := by
  unfold moveBullet
  dsimp only
  split <;> rfl

/-- C10: an enemy bullet that overlaps the active player while the
hit-invulnerability timer is positive is not consumed: provided it stayed
on the playfield and was not absorbed by a barrier, the slot update leaves
the whole model untouched and the bullet stays active, having moved by
`dy·dt`; and over a whole `STATE_PLAYING` step whose `dt` leaves the timer
still positive, lives never decrease and the state stays `STATE_PLAYING` —
lives can only drop when the timer has run out. -/
theorem enemy_bullet_invulnerability :
    (∀ (m : GameModel) (dt : ℚ) (b : Entity),
      b.active = true → b.type = ENTITY_BULLET_ENEMY →
      0 < m.hit_timer → m.player.active = true →
      check_collision (moveBullet dt b) m.player = true →
      ¬((moveBullet dt b).y < -10 ∨ (moveBullet dt b).y > GAME_HEIGHT) →
      hitShields (moveBullet dt b) m.shields = none →
      (stepBullet dt m b = (m, moveBullet dt b) ∧
       (moveBullet dt b).active = true ∧
       (moveBullet dt b).y = b.y + b.dy * dt)) ∧
    (∀ (m : GameModel) (dt : ℚ) (rng : List ℕ),
      m.state = STATE_PLAYING → 0 ≤ dt → dt < m.hit_timer →
      m.lives ≤ (model_update m dt rng).1.lives ∧
      (model_update m dt rng).1.state = STATE_PLAYING) := by
  constructor
  · intro m dt b hb hty hinv hpl hcol hbnd hsh
    have hd : decide (m.hit_timer ≤ 0) = false :=
      decide_eq_false (not_le.mpr hinv)
    have hty2 : ¬((moveBullet dt b).type = ENTITY_BULLET_PLAYER) := by
      rw [moveBullet_type, hty]
      simp
    refine ⟨?_, by rw [moveBullet_active]; exact hb, moveBullet_y dt b⟩
    unfold stepBullet
    rw [hb]
    simp only [Bool.not_true, Bool.false_eq_true, if_false, if_neg hbnd, hsh,
               if_neg hty2, hd, Bool.and_false, Bool.false_and]
  · intro m dt rng hst hdt0 hlt
    have h0 : 0 < m.hit_timer := lt_of_le_of_lt hdt0 hlt
    have hpos : 0 < m.hit_timer - dt := by linarith
    rw [model_update_playing m dt rng hst]
    have t1 := stepTimers_proj m dt
    have t2 := stepPlayer_proj (stepTimers m dt) dt
    have t3 := stepUfo_proj (stepPlayer (stepTimers m dt) dt) dt rng
    have t4 := stepEnemies_proj
      (stepUfo (stepPlayer (stepTimers m dt) dt) dt rng).1 dt
    have hh1 : (stepTimers m dt).hit_timer = m.hit_timer - dt := by
      rw [stepTimers_hit_timer, if_pos h0]
    have hl1 : (stepTimers m dt).lives = m.lives := t1.2.2.2.2.2.1
    have hs1 : (stepTimers m dt).state = m.state := t1.1
    have hh4 : (stepEnemies
        (stepUfo (stepPlayer (stepTimers m dt) dt) dt rng).1 dt).1.hit_timer =
        m.hit_timer - dt := by
      rw [t4.2.2.2.2.1, t3.2.2.2.2.2.2.1, t2.2.2.2.2.2.2.2.1, hh1]
    have hl4 : (stepEnemies
        (stepUfo (stepPlayer (stepTimers m dt) dt) dt rng).1 dt).1.lives =
        m.lives := by
      rw [t4.2.2.2.1, t3.2.2.2.2.1, t2.2.2.2.2.2.1, hl1]
    have hs4 : (stepEnemies
        (stepUfo (stepPlayer (stepTimers m dt) dt) dt rng).1 dt).1.state =
        m.state := by
      rw [t4.1, t3.1, t2.1, hs1]
    unfold playingStep
    dsimp only
    split
    · rw [hl4, hs4, hst]
      exact ⟨le_refl _, rfl⟩
    · have t5 := enemyFire_proj
        (stepEnemies (stepUfo (stepPlayer (stepTimers m dt) dt) dt rng).1 dt).1
        (stepUfo (stepPlayer (stepTimers m dt) dt) dt rng).2
      have hh5 : (enemyFire
          (stepEnemies (stepUfo (stepPlayer (stepTimers m dt) dt) dt rng).1 dt).1
          (stepUfo (stepPlayer (stepTimers m dt) dt) dt rng).2).hit_timer =
          m.hit_timer - dt := by
        rw [t5.2.2.2.2.2.2.1, hh4]
      have hl5 : (enemyFire
          (stepEnemies (stepUfo (stepPlayer (stepTimers m dt) dt) dt rng).1 dt).1
          (stepUfo (stepPlayer (stepTimers m dt) dt) dt rng).2).lives =
          m.lives := by
        rw [t5.2.2.2.2.1, hl4]
      have hs5 : (enemyFire
          (stepEnemies (stepUfo (stepPlayer (stepTimers m dt) dt) dt rng).1 dt).1
          (stepUfo (stepPlayer (stepTimers m dt) dt) dt rng).2).state =
          m.state := by
        rw [t5.1, hs4]
      unfold stepBullets
      dsimp only
      obtain ⟨hfh, hfl, hfs⟩ := bulletsFold_invuln dt
        (enemyFire
          (stepEnemies (stepUfo (stepPlayer (stepTimers m dt) dt) dt rng).1 dt).1
          (stepUfo (stepPlayer (stepTimers m dt) dt) dt rng).2).bullets
        (enemyFire
          (stepEnemies (stepUfo (stepPlayer (stepTimers m dt) dt) dt rng).1 dt).1
          (stepUfo (stepPlayer (stepTimers m dt) dt) dt rng).2)
        (by rw [hh5]; exact hpos)
      constructor
      · rw [← hl5]
        exact hfl
      · rw [hfs, hs5, hst]

/-- Witness for C10 at concrete inputs: the bullet `bEnemy` over the player
of `mInvuln`, and a full step of `mInvuln`. -/
theorem enemy_bullet_invulnerability_witness :
    ((bEnemy.active = true ∧ bEnemy.type = ENTITY_BULLET_ENEMY ∧
      0 < mInvuln.hit_timer ∧ mInvuln.player.active = true ∧
      check_collision (moveBullet (1/60) bEnemy) mInvuln.player = true ∧
      ¬((moveBullet (1/60) bEnemy).y < -10 ∨
        (moveBullet (1/60) bEnemy).y > GAME_HEIGHT) ∧
      hitShields (moveBullet (1/60) bEnemy) mInvuln.shields = none) ∧
     stepBullet (1/60) mInvuln bEnemy = (mInvuln, moveBullet (1/60) bEnemy)) ∧
    ((mInvuln.state = STATE_PLAYING ∧ (0 : ℚ) ≤ 1/60 ∧
      (1/60 : ℚ) < mInvuln.hit_timer) ∧
     (mInvuln.lives ≤ (model_update mInvuln (1/60) [98, 98]).1.lives ∧
      (model_update mInvuln (1/60) [98, 98]).1.state = STATE_PLAYING)) := by
  have h1 : bEnemy.active = true := rfl
  have h2 : bEnemy.type = ENTITY_BULLET_ENEMY := rfl
  have h3 : 0 < mInvuln.hit_timer := by with_unfolding_all decide
  have h4 : mInvuln.player.active = true := rfl
  have h5 : check_collision (moveBullet (1/60) bEnemy) mInvuln.player = true := by
    with_unfolding_all decide
  have h6 : ¬((moveBullet (1/60) bEnemy).y < -10 ∨
      (moveBullet (1/60) bEnemy).y > GAME_HEIGHT) := by
    with_unfolding_all decide
  have h7 : hitShields (moveBullet (1/60) bEnemy) mInvuln.shields = none := by
    with_unfolding_all decide
  have hs : mInvuln.state = STATE_PLAYING := rfl
  have hd0 : (0 : ℚ) ≤ 1/60 := by norm_num
  have hdl : (1/60 : ℚ) < mInvuln.hit_timer := by with_unfolding_all decide
  exact ⟨⟨⟨h1, h2, h3, h4, h5, h6, h7⟩,
          (enemy_bullet_invulnerability.1 mInvuln (1/60) bEnemy
            h1 h2 h3 h4 h5 h6 h7).1⟩,
         ⟨⟨hs, hd0, hdl⟩,
          enemy_bullet_invulnerability.2 mInvuln (1/60) [98, 98] hs hd0 hdl⟩⟩

end SpaceInv
